import Mathlib

/-!
Verification of the CarbonCoach recommendation engine
(`backend/diagnostic_recommendations.py`, `backend/lifestyle_recommendations.py`,
`backend/carbon_calc.py`) against its natural-language specification.

The Python code is shallowly embedded: floats are modelled as exact rationals
(`ℚ`), Python `int(x)` as truncation toward zero, Python `//` as `Int.fdiv`,
dictionaries as association lists or `Option`-valued record fields, database
oracles and the external emissions calculator as explicit environment
functions, and `try/except` as `Except Unit`.
-/

/-- Python `int(x)` applied to a float: truncation toward zero. -/
def pyInt (q : ℚ) : ℤ := if q < 0 then -⌊-q⌋ else ⌊q⌋

/-- Whether the first list of characters is an initial segment of the second
(used to model Python substring search). -/
def charsMatchAt : List Char → List Char → Bool
  | [], _ => true
  | _ :: _, [] => false
  | c :: cs, d :: ds => c = d && charsMatchAt cs ds

/-- Whether the first list of characters occurs contiguously in the second. -/
def charsHasSub (needle : List Char) : List Char → Bool
  | [] => charsMatchAt needle []
  | h :: t => charsMatchAt needle (h :: t) || charsHasSub needle t

/-- Python `needle in hay` on strings: contiguous substring test. -/
def strHasSub (hay needle : String) : Bool := charsHasSub needle.data hay.data

/-- Round to the nearest integer, ties to even (Python float formatting with
`,.0f` rounds half to even). -/
def roundHalfEven (q : ℚ) : ℤ :=
  let f := ⌊q⌋
  let frac := q - (f : ℚ)
  if frac < 1/2 then f
  else if 1/2 < frac then f + 1
  else if f % 2 = 0 then f else f + 1

/-- Insert thousands separators into a digit string given least-significant
first; returns most-significant first. -/
def groupDigitsAux : List Char → ℕ → List Char
  | [], _ => []
  | c :: cs, k =>
    if k = 3 then groupDigitsAux (c :: cs) 0 ++ [',']
    else groupDigitsAux cs (k + 1) ++ [c]

/-- Comma-grouped decimal rendering of a natural number. -/
def natWithCommas (n : ℕ) : String :=
  ⟨groupDigitsAux (toString n).data.reverse 0⟩

/-- Python `format(x, ',.0f')` on a nonnegative model float: round half to
even, then insert thousands separators (negative values never reach the
formatting call sites in this code). -/
def fmtComma0 (q : ℚ) : String :=
  let r := roundHalfEven q
  if r < 0 then "-" ++ natWithCommas r.natAbs else natWithCommas r.natAbs

/-- Python `f"{n:,}"` on an integer. -/
def intWithCommas (n : ℤ) : String :=
  if n < 0 then "-" ++ natWithCommas n.natAbs else natWithCommas n.natAbs

section StableSort

variable {α : Type*}

/-- The ordering used to model Python `list.sort(key=..., reverse=True)`:
compare keys descending and break ties by original position.  Sorting the
position-tagged list by this total order is exactly a stable descending
sort. -/
def lexGE (key : α → ℤ) (a b : ℕ × α) : Prop :=
  key b.2 < key a.2 ∨ (key a.2 = key b.2 ∧ a.1 ≤ b.1)

instance (key : α → ℤ) : DecidableRel (lexGE key) := fun a b => by
  unfold lexGE; infer_instance

instance (key : α → ℤ) : IsTotal (ℕ × α) (lexGE key) where
  total a b := by
    unfold lexGE
    rcases lt_trichotomy (key a.2) (key b.2) with h | h | h
    · exact Or.inr (Or.inl h)
    · rcases Nat.le_total a.1 b.1 with h' | h'
      · exact Or.inl (Or.inr ⟨h, h'⟩)
      · exact Or.inr (Or.inr ⟨h.symm, h'⟩)
    · exact Or.inl (Or.inl h)

instance (key : α → ℤ) : IsTrans (ℕ × α) (lexGE key) where
  trans a b c hab hbc := by
    unfold lexGE at *
    rcases hab with h1 | ⟨h1, h1'⟩ <;> rcases hbc with h2 | ⟨h2, h2'⟩
    · exact Or.inl (lt_trans h2 h1)
    · exact Or.inl (h2 ▸ h1)
    · exact Or.inl (h1 ▸ h2)
    · exact Or.inr ⟨h1.trans h2, h1'.trans h2'⟩

/-- Python `list.sort(key=key, reverse=True)`: a stable sort by descending
key.  Implemented by tagging each element with its position and sorting by
the induced (total, antisymmetric) lexicographic order, which characterises
stable sorting uniquely. -/
def pyStableSortDesc (key : α → ℤ) (l : List α) : List α :=
  (l.enum.insertionSort (lexGE key)).map Prod.snd

end StableSort


/-! ## Data model: structured survey state

Survey responses arrive as a mapping of section name to field mapping; each
section is modelled by a record with `Option` fields (`none` models a missing
key, so `dict.get(key, default)` becomes `Option.getD`). -/

/-- Fields of the `introduction` survey section. -/
structure IntroData where
  state : Option String
  household_size : Option ℚ
  housing_type : Option String
deriving DecidableEq

/-- Fields of the `home_energy` survey section.  `solar_panels` defaults to
`False` in the source (`home_data.get('solar_panels', False)`), so it is
modelled as a plain `Bool`. -/
structure HomeData where
  square_footage : Option ℚ
  monthly_electricity : Option ℚ
  heating_type : Option String
  heating_bill : Option ℚ
  solar_panels : Bool
deriving DecidableEq

/-- Fields of the `transportation` survey section. -/
structure TransportData where
  vehicle_year : Option ℤ
  vehicle_make : Option String
  vehicle_model : Option String
  annual_miles : Option ℚ
  domestic_flights : Option ℚ
  international_flights : Option ℚ
deriving DecidableEq

/-- Fields of the `consumption` survey section. -/
structure ConsumptionData where
  diet_type : Option String
  shopping_frequency : Option String
deriving DecidableEq

/-- The full structured survey state consumed by both analyzers. -/
structure Responses where
  introduction : IntroData
  home_energy : HomeData
  transportation : TransportData
  consumption : ConsumptionData
deriving DecidableEq

/-- `DiagnosticInsight` from diagnostic_recommendations.py. -/
structure DiagnosticInsight where
  category : String
  severity : String
  co2_savings_kg : ℤ
  description : String
  technologies : List String
deriving DecidableEq

/-- `LifestyleRecommendation` from lifestyle_recommendations.py. -/
structure LifestyleRecommendation where
  category : String
  action_type : String
  current_co2_kg : ℤ
  co2_savings_kg : ℤ
  recommendation_text : String
  cost_savings : Option ℤ
deriving DecidableEq

/-- A DSIRE incentive program (federal or state); only the columns read by
the Program Matcher are modelled. -/
structure Program where
  id : ℕ
  name : String
  summary : Option String
  program_type : String
  credibility_boost : Bool
deriving DecidableEq

/-- A persisted `Recommendation` row (models.py), restricted to the columns
written by the diagnostic generator. -/
structure Recommendation where
  session_id : String
  recommendation_text : String
  category : String
  priority_score : ℤ
  co2_savings_kg : ℤ
  federal_program_id : Option ℕ
  state_program_id : Option ℕ
deriving DecidableEq

/-! ## Baseline table (diagnostic_recommendations.BASELINES) -/

/-- `BASELINES['annual_miles_per_driver']`. -/
def annual_miles_per_driver : ℚ := 13482

/-- `BASELINES['square_feet_per_person']`. -/
def square_feet_per_person : ℚ := 850

/-- `BASELINES['electricity_monthly_by_state']` as a lookup (monthly cost per
person by state). -/
def electricity_monthly_by_state (s : String) : Option ℚ :=
  match s with
  | "AL" => some 50 | "AK" => some 58 | "AZ" => some 46 | "AR" => some 42
  | "CA" => some 79 | "CO" => some 37 | "CT" => some 77 | "DE" => some 54
  | "FL" => some 54 | "GA" => some 50 | "HI" => some 82 | "ID" => some 31
  | "IL" => some 46 | "IN" => some 42 | "IA" => some 40 | "KS" => some 42
  | "KY" => some 40 | "LA" => some 44 | "ME" => some 62 | "MD" => some 58
  | "MA" => some 69 | "MI" => some 50 | "MN" => some 49 | "MS" => some 46
  | "MO" => some 42 | "MT" => some 35 | "NE" => some 40 | "NV" => some 42
  | "NH" => some 65 | "NJ" => some 62 | "NM" => some 33 | "NY" => some 65
  | "NC" => some 46 | "ND" => some 38 | "OH" => some 46 | "OK" => some 40
  | "OR" => some 42 | "PA" => some 54 | "RI" => some 69 | "SC" => some 50
  | "SD" => some 42 | "TN" => some 44 | "TX" => some 66 | "UT" => some 33
  | "VT" => some 62 | "VA" => some 50 | "WA" => some 37 | "WV" => some 42
  | "WI" => some 50 | "WY" => some 35
  | _ => none

/-! ## Emissions Calculator (carbon_calc.py)

The calculator reads reference tables (emission factors, electricity rates,
vehicle fuel economy) from the database; these are modelled as an
environment of lookup functions. -/

/-- Database reference tables consumed by carbon_calc.py. -/
structure CalcEnv where
  emissionFactor : String → String → Option ℚ
  electricityRate : String → Option ℚ
  vehicleMPG : ℤ → String → String → Option ℚ

/-- Best-effort rendering of a model float for plain f-string interpolation
(cosmetic only; no claim depends on it). -/
def pyShowNum (q : ℚ) : String :=
  if q.den = 1 then toString q.num else toString q

/-- Python `f"{q:,}"` on a numeric value. -/
def qWithCommas (q : ℚ) : String :=
  if q.den = 1 then intWithCommas q.num else pyShowNum q

/-- carbon_calc.calculate_home_emissions, total emissions only (the breakdown
list it also returns is not consumed by the diagnostic analyzer).  A
ZeroDivisionError inside the function is caught by its own handler, which
returns 0.0; the explicit zero tests model that.  The `sqft` argument is
accepted but, as in the source, never used in the computation. -/
def calculate_home_emissions (env : CalcEnv) (sqft electric_bill : ℚ)
    (heating_type : String) (heating_bill : ℚ) (state : String)
    (household_size : ℚ) : ℚ :=
  let electricity_factor :=
    match env.emissionFactor "electricity" state with
    | some f => some f
    | none => env.emissionFactor "electricity" "US"
  let avg_kwh_rate := (env.electricityRate state).getD (13/100)
  if household_size = 0 ∨ avg_kwh_rate = 0 then 0
  else
    let individual_electric_bill := electric_bill / household_size
    let monthly_kwh := individual_electric_bill / avg_kwh_rate
    let annual_kwh := monthly_kwh * 12
    let electricity_emissions :=
      match electricity_factor with
      | some f => annual_kwh * f
      | none => 0
    let heating_emissions :=
      if heating_type.toLower = "gas" ∨ heating_type.toLower = "natural gas" then
        let individual_heating_bill := heating_bill / household_size
        let monthly_therms := individual_heating_bill / (12/10)
        let annual_therms := monthly_therms * 12
        match (match env.emissionFactor "natural_gas" state with
               | some f => some f
               | none => env.emissionFactor "natural_gas" "US") with
        | some f => annual_therms * f
        | none => 0
      else if heating_type.toLower = "oil" ∨ heating_type.toLower = "heating oil" then
        let individual_heating_bill := heating_bill / household_size
        let monthly_gallons := individual_heating_bill / (7/2)
        let annual_gallons := monthly_gallons * 12
        match env.emissionFactor "heating_oil" "US" with
        | some f => annual_gallons * f
        | none => 0
      else if heating_type.toLower = "electric" ∨ heating_type.toLower = "heat pump" then
        let individual_heating_bill := heating_bill / household_size
        let monthly_heating_kwh := individual_heating_bill / avg_kwh_rate
        let annual_heating_kwh := monthly_heating_kwh * 12
        match electricity_factor with
        | some f => annual_heating_kwh * f
        | none => 0
      else 0
    electricity_emissions + heating_emissions

/-- carbon_calc.calculate_transport_emissions, total emissions only.  A zero
looked-up fuel economy would raise ZeroDivisionError, caught by the
function's handler which returns 0.0. -/
def calculate_transport_emissions (env : CalcEnv) (year : ℤ)
    (make model : String) (annual_miles domestic_flights international_flights : ℚ) : ℚ :=
  let mpg_combined := (env.vehicleMPG year make.toLower model.toLower).getD 25
  if annual_miles > 0 ∧ mpg_combined = 0 then 0
  else
    let vehicle_emissions :=
      if annual_miles > 0 then
        match env.emissionFactor "gasoline" "US" with
        | some f => (annual_miles / mpg_combined) * f
        | none => 0
      else 0
    let domestic_emissions :=
      if domestic_flights > 0 then domestic_flights * 400 else 0
    let international_emissions :=
      if international_flights > 0 then international_flights * 1500 else 0
    vehicle_emissions + domestic_emissions + international_emissions

/-! ## Diagnostic Analyzer (diagnostic_recommendations.py) -/

/-- Arguments of a `calculate_home_emissions` call made by the heating
analysis (the constant session id is omitted). -/
structure HomeCallArgs where
  sqft : ℚ
  electric_bill : ℚ
  heating_type : String
  heating_bill : ℚ
  state : String
  household_size : ℚ
deriving DecidableEq

/-- Arguments of a `calculate_transport_emissions` call made by the vehicle
analysis. -/
structure TransportCallArgs where
  year : ℤ
  make : String
  model : String
  annual_miles : ℚ
  domestic : ℚ
  international : ℚ
deriving DecidableEq

/-- External effects used by diagnostic_recommendations.py: the two
emissions-calculator entry points, the VehicleMPG database lookup, the DSIRE
program query (returning (program, is federal) pairs in retrieval order:
federal first, then state), and whether clearing the session's old
recommendation rows succeeds.  `Except.error` models a raised exception at
the call site. -/
structure DiagEnv where
  calcHome : HomeCallArgs → Except Unit ℚ
  lookupMPG : ℤ → String → String → Except Unit (Option ℚ)
  calcTransport : TransportCallArgs → Except Unit ℚ
  getPrograms : String → List String → Except Unit (List (Program × Bool))
  clearOk : Bool

/-- diagnostic_recommendations.analyze_heating_source.  The two calculator
calls sit in a `try` block whose `except` branch produces the fixed 1500 kg
fallback insight. -/
def analyze_heating_source (calcHome : HomeCallArgs → Except Unit ℚ)
    (home_data : HomeData) (intro_data : IntroData) : Option DiagnosticInsight :=
  let heating_type := (home_data.heating_type.getD "").toLower
  if heating_type = "" then none
  else
    let is_high_carbon := strHasSub heating_type "gas" ||
      strHasSub heating_type "natural gas" || strHasSub heating_type "oil" ||
      strHasSub heating_type "propane"
    if is_high_carbon then
      let args1 : HomeCallArgs :=
        { sqft := home_data.square_footage.getD 1500
          electric_bill := home_data.monthly_electricity.getD 100
          heating_type := heating_type
          heating_bill := home_data.heating_bill.getD 100
          state := intro_data.state.getD "CA"
          household_size := intro_data.household_size.getD 2 }
      let args2 : HomeCallArgs :=
        { args1 with
          heating_type := "heat_pump"
          heating_bill := home_data.heating_bill.getD 100 * (6/10) }
      match (do
          let current_emissions ← calcHome args1
          let heat_pump_emissions ← calcHome args2
          pure (current_emissions - heat_pump_emissions) : Except Unit ℚ) with
      | .ok co2_savings =>
        if co2_savings > 500 then
          some { category := "home_heating"
                 severity := if co2_savings > 2000 then "high" else "medium"
                 co2_savings_kg := pyInt co2_savings
                 description := "I noticed you are using " ++ heating_type ++
                   " heating which produces high carbon emissions. You could reduce your carbon emissions by ~" ++
                   fmtComma0 co2_savings ++ " kg CO2/year by upgrading to a heat pump"
                 technologies := ["heat_pumps"] }
        else none
      | .error _ =>
        some { category := "home_heating"
               severity := "medium"
               co2_savings_kg := 1500
               description := "I noticed you are using " ++ heating_type ++
                 " heating which produces high carbon emissions"
               technologies := ["heat_pumps"] }
    else none

/-- The truck/SUV keyword list of the vehicle-MPG fallback. -/
def truckKeywords : List String :=
  ["truck", "suv", "suburban", "tahoe", "escalade", "navigator",
   "expedition", "f-150", "silverado", "ram", "tundra", "titan"]

/-- diagnostic_recommendations.analyze_vehicle_efficiency.  The MPG lookup
sits in its own `try` whose handler abstains; the two calculator calls sit in
a second `try` whose handler recomputes a simplified estimate, which itself
divides by the fuel economy and therefore re-raises (uncaught) when the
looked-up fuel economy is zero — hence the `Except` result type. -/
def analyze_vehicle_efficiency
    (lookupMPG : ℤ → String → String → Except Unit (Option ℚ))
    (calcTransport : TransportCallArgs → Except Unit ℚ)
    (transport_data : TransportData) : Except Unit (Option DiagnosticInsight) :=
  let annual_miles := transport_data.annual_miles.getD 0
  let vehicle_year := transport_data.vehicle_year.getD 0
  let vehicle_make := (transport_data.vehicle_make.getD "").toLower
  let vehicle_model := (transport_data.vehicle_model.getD "").toLower
  if annual_miles = 0 ∨ vehicle_year = 0 ∨ vehicle_make = "" ∨ vehicle_model = "" then
    pure none
  else
    match lookupMPG vehicle_year vehicle_make vehicle_model with
    | .error _ => pure none
    | .ok found =>
      let mpgResult : Option ℚ :=
        match found with
        | some m => some m
        | none =>
          if truckKeywords.any (fun keyword =>
              strHasSub (vehicle_make ++ " " ++ vehicle_model) keyword) then
            some 20
          else none
      match mpgResult with
      | none => pure none
      | some mpg =>
        match (do
            let current_emissions ← calcTransport
              { year := vehicle_year, make := vehicle_make, model := vehicle_model,
                annual_miles := annual_miles, domestic := 0, international := 0 }
            let ev_emissions ← calcTransport
              { year := 2023, make := "tesla", model := "model 3",
                annual_miles := annual_miles, domestic := 0, international := 0 }
            pure (current_emissions - ev_emissions) : Except Unit ℚ) with
        | .ok co2_savings =>
          if co2_savings > 1000 then
            pure (some
              { category := "transportation"
                severity := if co2_savings > 4000 then "high" else "medium"
                co2_savings_kg := pyInt co2_savings
                description := "I noticed you are driving " ++ qWithCommas annual_miles ++
                  " miles/year in your " ++ toString vehicle_year ++ " " ++ vehicle_make ++
                  " " ++ vehicle_model ++ " (" ++ pyShowNum mpg ++
                  " MPG). You could reduce your carbon emissions by " ++
                  fmtComma0 co2_savings ++ " kg CO2/year by upgrading to an EV"
                technologies := ["electric_vehicles"] })
          else pure none
        | .error _ =>
          if mpg < 30 then
            if mpg = 0 then .error ()
            else
              let gas_emissions := (annual_miles / mpg) * (89/10)
              let ev_emissions := annual_miles * (2/10)
              let co2_savings := pyInt (gas_emissions - ev_emissions)
              if co2_savings > 1000 then
                pure (some
                  { category := "transportation"
                    severity := if co2_savings > 4000 then "high" else "medium"
                    co2_savings_kg := co2_savings
                    description := "I noticed you are driving " ++ qWithCommas annual_miles ++
                      " miles/year in your " ++ toString vehicle_year ++ " " ++ vehicle_make ++
                      " " ++ vehicle_model ++ " (" ++ pyShowNum mpg ++ " MPG)"
                    technologies := ["electric_vehicles"] })
              else pure none
          else pure none

/-- diagnostic_recommendations.analyze_solar_opportunity (pure). -/
def analyze_solar_opportunity (home_data : HomeData) (intro_data : IntroData) :
    Option DiagnosticInsight :=
  let has_solar := home_data.solar_panels
  let housing_type := (intro_data.housing_type.getD "").toLower
  let electricity_bill := home_data.monthly_electricity.getD 0
  if has_solar then none
  else if strHasSub housing_type "apartment" || strHasSub housing_type "condo" then none
  else if electricity_bill > 80 then
    let annual_kwh := (electricity_bill / (16/100)) * 12
    let grid_emissions := annual_kwh * (4/10)
    let solar_emissions := annual_kwh * (5/100)
    let co2_savings := pyInt (grid_emissions - solar_emissions)
    if co2_savings > 800 then
      some { category := "solar_opportunity"
             severity := "medium"
             co2_savings_kg := co2_savings
             description := "I noticed you do not have solar panels on your " ++
               housing_type ++ ". You could reduce your carbon emissions by ~" ++
               intWithCommas co2_savings ++ " kg CO2/year by installing them"
             technologies := ["solar"] }
    else none
  else none

/-- diagnostic_recommendations.analyze_extreme_energy_costs.  Dividing the
square footage by a zero household size raises ZeroDivisionError, which this
function does not catch — hence the `Except` result type. -/
def analyze_extreme_energy_costs (home_data : HomeData) (intro_data : IntroData) :
    Except Unit (Option DiagnosticInsight) :=
  let electricity_bill := home_data.monthly_electricity.getD 0
  let square_footage := home_data.square_footage.getD 1500
  let state := intro_data.state.getD "CA"
  let household_size := intro_data.household_size.getD 2
  if electricity_bill = 0 then pure none
  else
    let state_baseline_per_person := (electricity_monthly_by_state state).getD 58
    let base_expected := state_baseline_per_person * household_size
    if square_footage > 0 ∧ household_size = 0 then .error ()
    else
      let expected_cost_household :=
        if square_footage > 0 then
          base_expected * ((square_footage / household_size) / square_feet_per_person)
        else base_expected
      let cost_ratio :=
        if expected_cost_household > 0 then electricity_bill / expected_cost_household
        else 1
      if cost_ratio > 18/10 then
        let excess_bill := electricity_bill - expected_cost_household
        let excess_kwh := (excess_bill / (16/100)) * 12
        let potential_kwh_savings := excess_kwh * (4/10)
        let co2_savings := pyInt (potential_kwh_savings * (4/10))
        pure (some
          { category := "home_efficiency"
            severity := "high"
            co2_savings_kg := co2_savings
            description := "I noticed your electricity bill $" ++ pyShowNum electricity_bill ++
              "/month seems unusually high. You could reduce your carbon emissions by ~" ++
              intWithCommas co2_savings ++
              " kg CO2/year through efficiency upgrades to your HVAC, insulation, appliances, or lighting"
            technologies := ["hvac", "insulation", "appliances", "lighting"] })
      else pure none

/-- diagnostic_recommendations.analyze_user_inefficiencies: run the four
sub-analyses in source order, collect the insights they emit, and stably sort
them by descending CO2 savings. -/
def analyze_user_inefficiencies (env : DiagEnv) (responses : Responses) :
    Except Unit (List DiagnosticInsight) := do
  let intro_data := responses.introduction
  let home_data := responses.home_energy
  let transport_data := responses.transportation
  let heating_insight := analyze_heating_source env.calcHome home_data intro_data
  let solar_insight := analyze_solar_opportunity home_data intro_data
  let transport_insight ← analyze_vehicle_efficiency env.lookupMPG env.calcTransport transport_data
  let energy_insight ← analyze_extreme_energy_costs home_data intro_data
  let insights := heating_insight.toList ++ solar_insight.toList ++
    transport_insight.toList ++ energy_insight.toList
  pure (pyStableSortDesc (fun i => i.co2_savings_kg) insights)

/-! ## Program Matcher (diagnostic_recommendations.py) -/

/-- The per-technology marker keyword table (`specificity_keywords`),
identical in `select_most_specific_program` and `select_top_programs`. -/
def specificity_keywords (tech : String) : List String :=
  match tech with
  | "electric_vehicles" => ["electric vehicle", "ev", "vehicle", "plug-in"]
  | "heat_pumps" => ["heat pump", "electrification", "hvac", "heating", "cooling"]
  | "solar" => ["solar", "photovoltaic", "pv", "renewable energy"]
  | "comprehensive" => ["energy efficiency", "weatherization", "home improvement"]
  | "hvac" => ["hvac", "heating", "cooling", "air conditioning"]
  | "insulation" => ["insulation", "weatherization", "envelope"]
  | "appliances" => ["appliance", "refrigerator", "washer", "dryer"]
  | "water_heating" => ["water heat", "hot water"]
  | "lighting" => ["lighting", "led", "lamp"]
  | "energy_storage" => ["battery", "storage", "backup power"]
  | _ => []

/-- The fixed program-type bonus table (`program_type_preference` with
`.get(..., 0)`). -/
def program_type_preference (program_type : String) : ℤ :=
  if program_type = "rebate" then 5
  else if program_type = "grant" then 4
  else if program_type = "tax_credit" then 3
  else if program_type = "tax_deduction" then 2
  else if program_type = "loan" then 1
  else if program_type = "tax_incentive" then 1
  else 0

/-- `score_program_specificity`, the scoring closure shared verbatim by
`select_most_specific_program` and `select_top_programs`.  It closes over the
insight's technology list; the is-federal flag it also receives is never
used. -/
def score_program_specificity (insight_technologies : List String)
    (program : Program) : ℤ :=
  let program_text := (program.name ++ " " ++ program.summary.getD "").toLower
  let total_target_keywords :=
    (insight_technologies.map fun tech => (specificity_keywords tech).length).sum
  let matched_keywords :=
    (insight_technologies.map fun tech =>
      ((specificity_keywords tech).filter fun keyword =>
        strHasSub program_text keyword).length).sum
  let score : ℤ := 0
  let score := score +
    (if total_target_keywords > 0 then
      (if ((matched_keywords : ℚ) / (total_target_keywords : ℚ)) ≥ 1/4 then 10
       else if matched_keywords > 0 then 5
       else 0)
     else 0)
  let score := score + program_type_preference program.program_type
  let score := score + (if program.credibility_boost then 5 else 0)
  score

/-- diagnostic_recommendations.select_most_specific_program: score every
candidate, stably sort by descending score (Python `list.sort` with
`reverse=True`), and return the first.  The `(None, False)` result on an
empty candidate list is modelled by `none`. -/
def select_most_specific_program (programs : List (Program × Bool))
    (insight : DiagnosticInsight) : Option (Program × Bool) :=
  (pyStableSortDesc (fun pb => score_program_specificity insight.technologies pb.1)
    programs).head?

/-- diagnostic_recommendations.select_top_programs: same scoring and stable
descending sort, returning the first `count` candidates. -/
def select_top_programs (programs : List (Program × Bool))
    (insight : DiagnosticInsight) (count : ℕ) : List (Program × Bool) :=
  if programs = [] then []
  else
    (pyStableSortDesc (fun pb => score_program_specificity insight.technologies pb.1)
      programs).take count

/-! ## Diagnostic Recommendation Generator -/

/-- The text persisted and returned for an insight's recommendations. -/
def recommendationText (insight : DiagnosticInsight) : String :=
  insight.description ++ ". The programs below can help cover the cost."

/-- Construction of one persisted `Recommendation` row from an insight and a
matched (program, is federal) pair. -/
def mkRecommendation (session_id : String) (insight : DiagnosticInsight)
    (pb : Program × Bool) : Recommendation :=
  { session_id := session_id
    recommendation_text := recommendationText insight
    category := insight.category
    priority_score := min (Int.fdiv insight.co2_savings_kg 50) 100
    co2_savings_kg := insight.co2_savings_kg
    federal_program_id := if pb.2 then some pb.1.id else none
    state_program_id := if pb.2 then none else some pb.1.id }

/-- The generic fallback returned when any exception escapes the generation
pipeline. -/
def fallbackRecommendationText : String :=
  "Consider exploring energy efficiency improvements to reduce your carbon footprint and save on utility costs."

/-- The encouragement returned when the analyzer produces no insight. -/
def noInsightsText : String :=
  "Great job! Your energy usage appears efficient. Consider exploring additional energy-saving opportunities like LED lighting upgrades or smart thermostats."

/-- State-code selection at the top of generate_diagnostic_recommendations:
default 'CA', and replace a falsy or non-2-character code by 'CA'. -/
def pickStateCode (responses : Responses) : String :=
  let state_code := responses.introduction.state.getD "CA"
  if state_code = "" ∨ state_code.length ≠ 2 then "CA" else state_code

/-- One iteration of the rank-2/rank-3 loop: query programs for the insight's
technologies and, when candidates exist, persist a single row via single-best
matching. -/
def processSecondaryInsight (env : DiagEnv) (session_id state_code : String)
    (insight : DiagnosticInsight) : Except Unit (List String × List Recommendation) := do
  let programs ← env.getPrograms state_code insight.technologies
  if programs = [] then pure ([], [])
  else
    match select_most_specific_program programs insight with
    | some pb => pure ([recommendationText insight], [mkRecommendation session_id insight pb])
    | none => pure ([], [])

/-- The rank-2/rank-3 loop over `insights[1:3]`. -/
def processSecondaryList (env : DiagEnv) (session_id state_code : String) :
    List DiagnosticInsight → Except Unit (List String × List Recommendation)
  | [] => pure ([], [])
  | insight :: rest => do
    let head ← processSecondaryInsight env session_id state_code insight
    let tail ← processSecondaryList env session_id state_code rest
    pure (head.1 ++ tail.1, head.2 ++ tail.2)

/-- The body of generate_diagnostic_recommendations inside its `try` block,
after the initial delete: returns the recommendation texts and the rows added
to the database session. -/
def diagBody (env : DiagEnv) (session_id : String) (responses : Responses) :
    Except Unit (List String × List Recommendation) := do
  let state_code := pickStateCode responses
  let insights ← analyze_user_inefficiencies env responses
  match insights with
  | [] => pure ([noInsightsText], [])
  | top_insight :: rest => do
    let programs ← env.getPrograms state_code top_insight.technologies
    let topPart :=
      if programs = [] then (([] : List String), ([] : List Recommendation))
      else
        let top_programs := select_top_programs programs top_insight (min 3 programs.length)
        (top_programs.map (fun _ => recommendationText top_insight),
         top_programs.map (mkRecommendation session_id top_insight))
    let secondary ← processSecondaryList env session_id state_code (rest.take 2)
    pure (topPart.1 ++ secondary.1, topPart.2 ++ secondary.2)

/-- diagnostic_recommendations.generate_diagnostic_recommendations.  Returns
the recommendation texts, the committed rows (the per-session delete at the
top is followed by the only `commit` inside the function), and the rows added
to the database session (left for the caller to commit).  Rows added before
an exception are never committed by this function, so the model drops them on
the error path. -/
def generate_diagnostic_recommendations (env : DiagEnv) (session_id : String)
    (responses : Responses) (db : List Recommendation) :
    List String × List Recommendation × List Recommendation :=
  if env.clearOk then
    let cleared := db.filter (fun row => row.session_id ≠ session_id)
    match diagBody env session_id responses with
    | .ok (texts, adds) => (texts, cleared, adds)
    | .error _ => ([fallbackRecommendationText], cleared, [])
  else ([fallbackRecommendationText], db, [])

/-! ## Lifestyle Analyzer (lifestyle_recommendations.py) -/

/-- `DOMESTIC_FLIGHT_AVG_COST`. -/
def DOMESTIC_FLIGHT_AVG_COST : ℤ := 400

/-- `INTERNATIONAL_FLIGHT_AVG_COST`. -/
def INTERNATIONAL_FLIGHT_AVG_COST : ℤ := 1200

/-- `GAS_PRICE_PER_GALLON`. -/
def GAS_PRICE_PER_GALLON : ℚ := 7/2

/-- External data used by lifestyle_recommendations.py: the emission
breakdown of the session's latest calculation (an insertion-ordered dict of
emission-source label to kg CO2, already defaulted to empty when the
retrieval fails) and the VehicleMPG lookup. -/
structure LifeEnv where
  breakdown : List (String × ℚ)
  lookupMPG : ℤ → String → String → Except Unit (Option ℚ)

/-- Python `breakdown_data.get(key, 0)`: exact-key dictionary lookup. -/
def breakdownGet (breakdown : List (String × ℚ)) (key : String) : ℚ :=
  ((breakdown.find? fun sv => sv.1 = key).map fun sv => sv.2).getD 0

/-- lifestyle_recommendations.analyze_flight_usage_from_breakdown (pure). -/
def analyze_flight_usage_from_breakdown (breakdown : List (String × ℚ))
    (transport_data : TransportData) : Option LifestyleRecommendation :=
  let domestic_flights := transport_data.domestic_flights.getD 0
  let international_flights := transport_data.international_flights.getD 0
  let domestic_co2 := breakdownGet breakdown "Domestic Flights"
  let international_co2 := breakdownGet breakdown "International Flights"
  let total_flight_co2 := domestic_co2 + international_co2
  if total_flight_co2 = 0 then none
  else
    let high_domestic := domestic_flights > 3
    let high_international := international_flights > 1
    if high_domestic ∧ high_international then
      some { category := "transportation"
             action_type := "reduce_flights"
             current_co2_kg := pyInt total_flight_co2
             co2_savings_kg := 1200
             recommendation_text := "Your " ++ pyShowNum domestic_flights ++
               " domestic and " ++ pyShowNum international_flights ++
               " international flights produce " ++ fmtComma0 total_flight_co2 ++
               " kg CO2 annually. Consider taking one less international round trip each year - perhaps take longer but fewer trips abroad. This could save around 1200 kg CO2 annually."
             cost_savings := some INTERNATIONAL_FLIGHT_AVG_COST }
    else if high_international then
      some { category := "transportation"
             action_type := "reduce_international_flights"
             current_co2_kg := pyInt total_flight_co2
             co2_savings_kg := 1200
             recommendation_text := "Your " ++ pyShowNum international_flights ++
               " international flights produce " ++ fmtComma0 total_flight_co2 ++
               " kg CO2 annually. Consider taking one less round trip each year- perhaps take longer but fewer trips abroad. This could save around 1200 kg CO2 annually."
             cost_savings := some INTERNATIONAL_FLIGHT_AVG_COST }
    else if high_domestic then
      some { category := "transportation"
             action_type := "reduce_domestic_flights"
             current_co2_kg := pyInt total_flight_co2
             co2_savings_kg := 450
             recommendation_text := "Your " ++ pyShowNum domestic_flights ++
               " domestic flights produce " ++ fmtComma0 total_flight_co2 ++
               " kg CO2 annually. Consider taking one less round trip each year - perhaps combine trips or explore closer destinations. This could save around 450 kg CO2 annually."
             cost_savings := some DOMESTIC_FLIGHT_AVG_COST }
    else none

/-- lifestyle_recommendations.analyze_driving_from_breakdown.  The MPG lookup
sits in a `try` whose handler abstains, but the later gas-cost division by
the fuel economy is unguarded, so a zero fuel economy raises — hence the
`Except` result type. -/
def analyze_driving_from_breakdown
    (lookupMPG : ℤ → String → String → Except Unit (Option ℚ))
    (breakdown : List (String × ℚ)) (transport_data : TransportData) :
    Except Unit (Option LifestyleRecommendation) :=
  let annual_miles := transport_data.annual_miles.getD 0
  let vehicle_year := transport_data.vehicle_year.getD 0
  let vehicle_make := (transport_data.vehicle_make.getD "").toLower
  let vehicle_model := (transport_data.vehicle_model.getD "").toLower
  let vehicle_co2 :=
    ((breakdown.find? fun sv =>
        sv.1.startsWith "Vehicle (" && vehicle_year ≠ 0 &&
        strHasSub sv.1 (toString vehicle_year)).map fun sv => sv.2).getD 0
  if vehicle_co2 = 0 ∨ annual_miles = 0 then pure none
  else if annual_miles ≤ annual_miles_per_driver * (5/4) then pure none
  else
    match lookupMPG vehicle_year vehicle_make vehicle_model with
    | .error _ => pure none
    | .ok found =>
      let mpgResult : Option ℚ :=
        match found with
        | some m => some m
        | none =>
          if truckKeywords.any (fun keyword =>
              strHasSub (vehicle_make ++ " " ++ vehicle_model) keyword) then
            some 20
          else none
      match mpgResult with
      | none => pure none
      | some mpg =>
        if mpg ≥ 50 then pure none
        else if mpg = 0 then .error ()
        else
          let co2_savings := pyInt (vehicle_co2 * (1/10))
          let miles_to_reduce := pyInt (annual_miles * (1/10))
          let gas_savings_per_year :=
            pyInt (((miles_to_reduce : ℚ) / mpg) * GAS_PRICE_PER_GALLON)
          pure (some
            { category := "transportation"
              action_type := "drive_less"
              current_co2_kg := pyInt vehicle_co2
              co2_savings_kg := co2_savings
              recommendation_text := "Your " ++ toString vehicle_year ++ " " ++
                vehicle_make ++ " " ++ vehicle_model ++ " produces " ++
                fmtComma0 vehicle_co2 ++ " kg CO2 annually from " ++
                qWithCommas annual_miles ++
                " miles of driving. Consider reducing your driving by 10% (" ++
                intWithCommas miles_to_reduce ++
                " miles) through carpooling, combining errands, or working from home more often. This could save around " ++
                pyShowNum (co2_savings : ℚ) ++ " kg CO2 annually."
              cost_savings := some gas_savings_per_year })

/-- lifestyle_recommendations.analyze_energy_from_breakdown.  Shares the
expected-cost computation with the diagnostic extreme-cost check, including
the unguarded division by a zero household size — hence `Except`. -/
def analyze_energy_from_breakdown (breakdown : List (String × ℚ))
    (home_data : HomeData) (intro_data : IntroData) :
    Except Unit (Option LifestyleRecommendation) :=
  let electricity_bill := home_data.monthly_electricity.getD 0
  let square_footage := home_data.square_footage.getD 1500
  let state := intro_data.state.getD "CA"
  let household_size := intro_data.household_size.getD 2
  let electricity_co2 := breakdownGet breakdown "Electricity"
  if electricity_co2 = 0 ∨ electricity_bill = 0 then pure none
  else
    let state_baseline_per_person := (electricity_monthly_by_state state).getD 58
    let base_expected := state_baseline_per_person * household_size
    if square_footage > 0 ∧ household_size = 0 then .error ()
    else
      let expected_cost_household :=
        if square_footage > 0 then
          base_expected * ((square_footage / household_size) / square_feet_per_person)
        else base_expected
      let cost_ratio :=
        if expected_cost_household > 0 then electricity_bill / expected_cost_household
        else 1
      if cost_ratio ≤ 18/10 then pure none
      else
        let co2_savings := pyInt (electricity_co2 * (1/10))
        let monthly_savings := pyInt (electricity_bill * (1/10))
        let annual_savings := monthly_savings * 12
        pure (some
          { category := "home_energy"
            action_type := "reduce_energy_use"
            current_co2_kg := pyInt electricity_co2
            co2_savings_kg := co2_savings
            recommendation_text := "Your electricity usage produces " ++
              fmtComma0 electricity_co2 ++ " kg CO2 annually, with bills " ++
              fmtComma0 ((cost_ratio - 1) * 100) ++
              "% above typical usage for your area. Consider reducing energy use by 10% through adjusting your thermostat, using LED bulbs, and unplugging devices when not in use. This could save around " ++
              pyShowNum (co2_savings : ℚ) ++ " kg CO2 and $" ++
              pyShowNum (monthly_savings : ℚ) ++ "/month."
            cost_savings := some annual_savings })

/-- lifestyle_recommendations.analyze_diet_from_breakdown (pure).  The diet
type defaults to 'moderate_meat' when absent. -/
def analyze_diet_from_breakdown (breakdown : List (String × ℚ))
    (consumption_data : ConsumptionData) : Option LifestyleRecommendation :=
  let diet_type := consumption_data.diet_type.getD "moderate_meat"
  let diet_co2 :=
    ((breakdown.find? fun sv => sv.1.startsWith "Diet (").map fun sv => sv.2).getD 0
  if diet_co2 = 0 then none
  else if diet_type = "heavy_meat" then
    some { category := "consumption"
           action_type := "reduce_meat_consumption"
           current_co2_kg := pyInt diet_co2
           co2_savings_kg := 1400
           recommendation_text := "Your heavy meat diet produces " ++
             fmtComma0 diet_co2 ++
             " kg CO2 annually. Consider eating meat just a few times per week. Try having 'Meatless Monday' or exploring plant-based proteins like beans, lentils, and tofu for some meals. This could save around 1400 kg CO2 annually."
           cost_savings := none }
  else if diet_type = "moderate_meat" then
    some { category := "consumption"
           action_type := "reduce_meat_consumption"
           current_co2_kg := pyInt diet_co2
           co2_savings_kg := 600
           recommendation_text := "Your meat diet produces " ++
             fmtComma0 diet_co2 ++
             " kg CO2 annually. Consider eating meat just a few times per week. Try having 'Meatless Monday' or exploring plant-based proteins like beans, lentils, and tofu for some meals. This could save around 600 kg CO2 annually."
           cost_savings := none }
  else none

/-- lifestyle_recommendations.analyze_shopping_from_breakdown (pure).  The
shopping frequency defaults to 'moderate' when absent. -/
def analyze_shopping_from_breakdown (breakdown : List (String × ℚ))
    (consumption_data : ConsumptionData) : Option LifestyleRecommendation :=
  let shopping_frequency := consumption_data.shopping_frequency.getD "moderate"
  let shopping_co2 :=
    ((breakdown.find? fun sv =>
        strHasSub sv.1 "Consumer goods" || strHasSub sv.1 "consumer goods").map
      fun sv => sv.2).getD 0
  if shopping_co2 = 0 then none
  else if shopping_frequency = "very_high" then
    some { category := "consumption"
           action_type := "reduce_shopping_frequency"
           current_co2_kg := pyInt shopping_co2
           co2_savings_kg := 2000
           recommendation_text := "Your very frequent shopping produces " ++
             fmtComma0 shopping_co2 ++
             " kg CO2 annually. Consider reducing to moderate shopping by waiting to bundle online purchases, buying higher-quality items that last longer, and asking yourself if you really need new items before purchasing. This could save around 2000 kg CO2 annually."
           cost_savings := none }
  else if shopping_frequency = "high" then
    some { category := "consumption"
           action_type := "reduce_shopping_frequency"
           current_co2_kg := pyInt shopping_co2
           co2_savings_kg := 1000
           recommendation_text := "Your frequent shopping produces " ++
             fmtComma0 shopping_co2 ++
             " kg CO2 annually. Consider reducing to moderate shopping by waiting a day before making non-essential purchases, focusing on experiences over things, and buying second-hand when possible. This could save around 1000 kg CO2 annually."
           cost_savings := none }
  else none

/-- lifestyle_recommendations.analyze_lifestyle_opportunities: run the five
checks in source order over the latest breakdown and stably sort the results
by descending present-day CO2 impact. -/
def analyze_lifestyle_opportunities (env : LifeEnv) (responses : Responses) :
    Except Unit (List LifestyleRecommendation) := do
  if env.breakdown = [] then pure []
  else
    let intro_data := responses.introduction
    let home_data := responses.home_energy
    let transport_data := responses.transportation
    let consumption_data := responses.consumption
    let flight_rec := analyze_flight_usage_from_breakdown env.breakdown transport_data
    let driving_rec ← analyze_driving_from_breakdown env.lookupMPG env.breakdown transport_data
    let energy_rec ← analyze_energy_from_breakdown env.breakdown home_data intro_data
    let diet_rec := analyze_diet_from_breakdown env.breakdown consumption_data
    let shopping_rec := analyze_shopping_from_breakdown env.breakdown consumption_data
    let recommendations := flight_rec.toList ++ driving_rec.toList ++
      energy_rec.toList ++ diet_rec.toList ++ shopping_rec.toList
    pure (pyStableSortDesc (fun r => r.current_co2_kg) recommendations)

/-- lifestyle_recommendations.generate_lifestyle_recommendations: any raised
exception is caught and yields the empty list; otherwise show only the top
lifestyle change when three or more technology recommendations already exist,
else up to three. -/
def generate_lifestyle_recommendations (env : LifeEnv) (responses : Responses)
    (existing_tech_rec_count : ℕ) : List LifestyleRecommendation :=
  match analyze_lifestyle_opportunities env responses with
  | .error _ => []
  | .ok lifestyle_insights =>
    if lifestyle_insights = [] then []
    else if existing_tech_rec_count ≥ 3 then lifestyle_insights.take 1
    else lifestyle_insights.take 3

/-! ## Specification-comparison definitions for the Program Matcher -/

/-- The keyword-specificity component exactly as the code computes it: the
counts run over the concatenation of the per-technology keyword lists, so a
keyword listed by several of the insight's technologies is counted once per
listing, in both the numerator and the denominator. -/
def keywordSpecificityComponent (insight_technologies : List String)
    (program : Program) : ℤ :=
  let program_text := (program.name ++ " " ++ program.summary.getD "").toLower
  let total_target_keywords :=
    (insight_technologies.map fun tech => (specificity_keywords tech).length).sum
  let matched_keywords :=
    (insight_technologies.map fun tech =>
      ((specificity_keywords tech).filter fun keyword =>
        strHasSub program_text keyword).length).sum
  if total_target_keywords > 0 then
    (if ((matched_keywords : ℚ) / (total_target_keywords : ℚ)) ≥ 1/4 then 10
     else if matched_keywords > 0 then 5
     else 0)
  else 0

/-- The keyword-specificity component as the specification words it: the
fraction is measured against the set union of the marker keywords of the
insight's technologies, each distinct keyword counted once.  This definition
follows the specification text, to be compared with the code's counting. -/
def keywordSpecificityComponentSpecUnion (insight_technologies : List String)
    (program : Program) : ℤ :=
  let program_text := (program.name ++ " " ++ program.summary.getD "").toLower
  let union_keywords := (insight_technologies.map specificity_keywords).flatten.dedup
  let total_target_keywords := union_keywords.length
  let matched_keywords :=
    (union_keywords.filter fun keyword => strHasSub program_text keyword).length
  if total_target_keywords > 0 then
    (if ((matched_keywords : ℚ) / (total_target_keywords : ℚ)) ≥ 1/4 then 10
     else if matched_keywords > 0 then 5
     else 0)
  else 0

/-- The flat credibility bonus. -/
def credibilityBonus (program : Program) : ℤ :=
  if program.credibility_boost then 5 else 0

/-- Decidable equality of `Except` results, used to evaluate the embedding on
concrete inputs. -/
instance {ε α : Type} [DecidableEq ε] [DecidableEq α] : DecidableEq (Except ε α) :=
  fun a b =>
    match a, b with
    | .ok x, .ok y =>
      if h : x = y then isTrue (by rw [h]) else isFalse (by simp [h])
    | .error x, .error y =>
      if h : x = y then isTrue (by rw [h]) else isFalse (by simp [h])
    | .ok _, .error _ => isFalse (by simp)
    | .error _, .ok _ => isFalse (by simp)

/-! ## Concrete fixtures for counterexamples and witnesses -/

/-- An empty transportation section. -/
def noTransport : TransportData :=
  { vehicle_year := none
    vehicle_make := none
    vehicle_model := none
    annual_miles := none
    domestic_flights := none
    international_flights := none }

/-- An empty consumption section. -/
def noConsumption : ConsumptionData :=
  { diet_type := none
    shopping_frequency := none }

/-- Reference tables with no electricity factor and a natural-gas factor of
1.001 kg CO2 per therm. -/
def calcEnvGas : CalcEnv :=
  { emissionFactor := fun category _ =>
      if category = "natural_gas" then some (1001/1000) else none
    electricityRate := fun _ => none
    vehicleMPG := fun _ _ _ => none }

/-- Diagnostic environment whose home calculator is the embedded
carbon_calc.calculate_home_emissions over `calcEnvGas`. -/
def diagEnvGasHalf : DiagEnv :=
  { calcHome := fun a => .ok (calculate_home_emissions calcEnvGas a.sqft
      a.electric_bill a.heating_type a.heating_bill a.state a.household_size)
    lookupMPG := fun _ _ _ => .ok none
    calcTransport := fun _ => .ok 0
    getPrograms := fun _ _ => .ok []
    clearOk := true }

/-- Survey state: gas heating with a 100 dollar heating bill, solar already
installed, 100 dollar electricity bill, CA household of two. -/
def responsesGas : Responses :=
  { introduction :=
      { state := some "CA"
        household_size := some 2
        housing_type := some "house" }
    home_energy :=
      { square_footage := some 1500
        monthly_electricity := some 100
        heating_type := some "gas"
        heating_bill := some 100
        solar_panels := true }
    transportation := noTransport
    consumption := noConsumption }

/-- Diagnostic environment whose emissions calculator raises on every call
(exercising the calculator-failure fallbacks). -/
def diagEnvFail : DiagEnv :=
  { calcHome := fun _ => .error ()
    lookupMPG := fun _ _ _ => .ok none
    calcTransport := fun _ => .error ()
    getPrograms := fun _ _ => .ok []
    clearOk := true }

/-- The 1500 kg heating fallback insight produced for `responsesGas` when the
calculator raises. -/
def heatingFallbackInsight : DiagnosticInsight :=
  { category := "home_heating"
    severity := "medium"
    co2_savings_kg := 1500
    description := "I noticed you are using gas heating which produces high carbon emissions"
    technologies := ["heat_pumps"] }

/-- A solar rebate program fixture. -/
def programSolarRebate : Program :=
  { id := 7
    name := "Residential solar rebate"
    summary := some "Rebate for rooftop photovoltaic systems"
    program_type := "rebate"
    credibility_boost := false }

/-- A second, generic program fixture. -/
def programGenericLoan : Program :=
  { id := 8
    name := "Home improvement loan"
    summary := none
    program_type := "loan"
    credibility_boost := false }

/-- Survey state: gas heating and a 200 dollar electricity bill with no
solar, producing both a solar insight (top) and a heating fallback insight
(rank 2) when the calculator raises. -/
def responsesSolarGas : Responses :=
  { introduction :=
      { state := some "CA"
        household_size := some 2
        housing_type := some "house" }
    home_energy :=
      { square_footage := some 1500
        monthly_electricity := some 200
        heating_type := some "gas"
        heating_bill := some 100
        solar_panels := false }
    transportation := noTransport
    consumption := noConsumption }

/-- Environment for the C4 counterexample: the calculator raises, the solar
technology has exactly one candidate program and every other query returns no
candidates. -/
def diagEnvSolarOnly : DiagEnv :=
  { calcHome := fun _ => .error ()
    lookupMPG := fun _ _ _ => .ok none
    calcTransport := fun _ => .error ()
    getPrograms := fun _ technologies =>
      if technologies = ["solar"] then .ok [(programSolarRebate, true)] else .ok []
    clearOk := true }

/-- Environment where every program query returns the same single
candidate. -/
def diagEnvOneProgram : DiagEnv :=
  { calcHome := fun _ => .error ()
    lookupMPG := fun _ _ _ => .ok none
    calcTransport := fun _ => .error ()
    getPrograms := fun _ _ => .ok [(programSolarRebate, true)]
    clearOk := true }

/-- Environment whose program query raises. -/
def diagEnvQueryFail : DiagEnv :=
  { calcHome := fun _ => .error ()
    lookupMPG := fun _ _ _ => .ok none
    calcTransport := fun _ => .error ()
    getPrograms := fun _ _ => .error ()
    clearOk := true }

/-- Environment whose initial row-clearing raises. -/
def diagEnvClearFail : DiagEnv :=
  { calcHome := fun _ => .error ()
    lookupMPG := fun _ _ _ => .ok none
    calcTransport := fun _ => .error ()
    getPrograms := fun _ _ => .ok []
    clearOk := false }

/-- A program whose text names exactly one unshared heat-pump keyword and one
unshared hvac keyword (for the C2 counterexample). -/
def programUnionGap : Program :=
  { id := 9
    name := "electrification air conditioning"
    summary := none
    program_type := "other_financial"
    credibility_boost := false }

/-- Lifestyle environment: a heavy-meat diet line is the only breakdown
entry. -/
def lifeEnvDiet : LifeEnv :=
  { breakdown := [("Diet (Heavy Meat)", 3300)]
    lookupMPG := fun _ _ _ => .ok none }

/-- Survey state with a heavy-meat diet. -/
def responsesHeavyMeat : Responses :=
  { introduction :=
      { state := some "CA"
        household_size := some 2
        housing_type := some "house" }
    home_energy :=
      { square_footage := some 1500
        monthly_electricity := none
        heating_type := none
        heating_bill := none
        solar_panels := true }
    transportation := noTransport
    consumption :=
      { diet_type := some "heavy_meat"
        shopping_frequency := none } }

/-- The heavy-meat lifestyle recommendation produced for `lifeEnvDiet`. -/
def heavyMeatRec : LifestyleRecommendation :=
  { category := "consumption"
    action_type := "reduce_meat_consumption"
    current_co2_kg := 3300
    co2_savings_kg := 1400
    recommendation_text := "Your heavy meat diet produces 3,300 kg CO2 annually. Consider eating meat just a few times per week. Try having 'Meatless Monday' or exploring plant-based proteins like beans, lentils, and tofu for some meals. This could save around 1400 kg CO2 annually."
    cost_savings := none }

/-- A persisted row of the session under test (for the C9 witness). -/
def oldRowSameSession : Recommendation :=
  { session_id := "s"
    recommendation_text := "old"
    category := "home_heating"
    priority_score := 10
    co2_savings_kg := 500
    federal_program_id := some 1
    state_program_id := none }

/-- A persisted row of another session (for the C9 witness). -/
def oldRowOtherSession : Recommendation :=
  { session_id := "t"
    recommendation_text := "other"
    category := "home_heating"
    priority_score := 10
    co2_savings_kg := 500
    federal_program_id := some 1
    state_program_id := none }

/-- The solar insight produced for `responsesSolarGas`. -/
def solarInsightSolarGas : DiagnosticInsight :=
  { category := "solar_opportunity"
    severity := "medium"
    co2_savings_kg := 5250
    description := "I noticed you do not have solar panels on your house. You could reduce your carbon emissions by ~5,250 kg CO2/year by installing them"
    technologies := ["solar"] }

/-- A two-element candidate list in retrieval order. -/
def programsPair : List (Program × Bool) :=
  [(programSolarRebate, true), (programGenericLoan, false)]

/-- Home-energy section with a 50 dollar bill and no solar. -/
def homeNoSolarBill50 : HomeData :=
  { square_footage := some 1500
    monthly_electricity := some 50
    heating_type := none
    heating_bill := none
    solar_panels := false }

/-- Introduction section for a detached house. -/
def introHouse : IntroData :=
  { state := some "CA"
    household_size := some 2
    housing_type := some "house" }

/-! ## Theorems -/

section StableSortFacts

variable {α : Type*}

/-- The stable descending sort is a permutation of its input. -/
theorem pyStableSortDesc_perm (key : α → ℤ) (l : List α) :
    List.Perm (pyStableSortDesc key l) l := by
  unfold pyStableSortDesc
  have h := (List.perm_insertionSort (lexGE key) l.enum).map Prod.snd
  rwa [List.enum_map_snd] at h

/-- The stable descending sort's length. -/
theorem pyStableSortDesc_length (key : α → ℤ) (l : List α) :
    (pyStableSortDesc key l).length = l.length :=
  (pyStableSortDesc_perm key l).length_eq

/-- The output of the stable descending sort is pairwise descending in the
key. -/
theorem pyStableSortDesc_pairwise (key : α → ℤ) (l : List α) :
    (pyStableSortDesc key l).Pairwise (fun a b => key b ≤ key a) := by
  unfold pyStableSortDesc
  have hs := List.sorted_insertionSort (lexGE key) l.enum
  refine List.Pairwise.map Prod.snd ?_ hs
  intro a b hab
  rcases hab with h | ⟨h, _⟩
  · exact le_of_lt h
  · exact le_of_eq h.symm

/-- Membership characterisation of the sorted output. -/
theorem pyStableSortDesc_mem (key : α → ℤ) (l : List α) {x : α} :
    x ∈ pyStableSortDesc key l ↔ x ∈ l :=
  (pyStableSortDesc_perm key l).mem_iff

/-- Stability of the modelled Python sort: positions of the output map
injectively to positions of the input, and elements with equal keys keep
their original relative order. -/
theorem pyStableSortDesc_stable (key : α → ℤ) (l : List α) :
    ∃ φ : ℕ → ℕ,
      (∀ i, i < (pyStableSortDesc key l).length →
        φ i < l.length ∧ (pyStableSortDesc key l)[i]? = l[φ i]?) ∧
      (∀ i j, i < (pyStableSortDesc key l).length →
        j < (pyStableSortDesc key l).length → φ i = φ j → i = j) ∧
      (∀ i j x y, i < j → (pyStableSortDesc key l)[i]? = some x →
        (pyStableSortDesc key l)[j]? = some y → key x = key y → φ i < φ j) := by
  classical
  have hperm : List.Perm (l.enum.insertionSort (lexGE key)) l.enum :=
    List.perm_insertionSort _ _
  have hsort : List.Sorted (lexGE key) (l.enum.insertionSort (lexGE key)) :=
    List.sorted_insertionSort _ _
  have hsl : (l.enum.insertionSort (lexGE key)).length = l.length := by
    rw [hperm.length_eq, List.enum_length]
  have hos : (pyStableSortDesc key l).length =
      (l.enum.insertionSort (lexGE key)).length := by
    unfold pyStableSortDesc
    rw [List.length_map]
  have hnodupfst : ((l.enum.insertionSort (lexGE key)).map Prod.fst).Nodup := by
    have h1 : List.Perm ((l.enum.insertionSort (lexGE key)).map Prod.fst)
        (l.enum.map Prod.fst) := hperm.map _
    rw [h1.nodup_iff, List.enum_map_fst]
    exact List.nodup_range _
  -- the position map: output slot i comes from input slot fst (sorted[i])
  refine ⟨fun i =>
    if h : i < (l.enum.insertionSort (lexGE key)).length then
      ((l.enum.insertionSort (lexGE key)).get ⟨i, h⟩).1
    else 0, ?_, ?_, ?_⟩
  · intro i hi
    have hi' : i < (l.enum.insertionSort (lexGE key)).length := by omega
    simp only [dif_pos hi']
    have hmem : (l.enum.insertionSort (lexGE key)).get ⟨i, hi'⟩ ∈ l.enum :=
      hperm.mem_iff.mp (List.get_mem _ _ _)
    have henum := List.mem_enum_iff_getElem?.mp hmem
    rcases List.getElem?_eq_some_iff.mp henum with ⟨hlt, _⟩
    refine ⟨hlt, ?_⟩
    have houti : (pyStableSortDesc key l)[i]? =
        some ((l.enum.insertionSort (lexGE key)).get ⟨i, hi'⟩).2 := by
      unfold pyStableSortDesc
      rw [List.getElem?_map, List.getElem?_eq_getElem hi']
      simp [List.get_eq_getElem]
    rw [houti, henum]
  · intro i j hi hj hphi
    have hi' : i < (l.enum.insertionSort (lexGE key)).length := by omega
    have hj' : j < (l.enum.insertionSort (lexGE key)).length := by omega
    simp only [dif_pos hi', dif_pos hj'] at hphi
    have hmi : i < ((l.enum.insertionSort (lexGE key)).map Prod.fst).length := by
      rw [List.length_map]; omega
    have hmj : j < ((l.enum.insertionSort (lexGE key)).map Prod.fst).length := by
      rw [List.length_map]; omega
    have hgeq : ((l.enum.insertionSort (lexGE key)).map Prod.fst).get ⟨i, hmi⟩ =
        ((l.enum.insertionSort (lexGE key)).map Prod.fst).get ⟨j, hmj⟩ := by
      simp only [List.get_eq_getElem, List.getElem_map]
      simpa [List.get_eq_getElem] using hphi
    have := (List.Nodup.get_inj_iff hnodupfst).mp hgeq
    exact congrArg Fin.val this
  · intro i j x y hij hx hy hkey
    have hj : j < (pyStableSortDesc key l).length :=
      (List.getElem?_eq_some_iff.mp hy).1
    have hi : i < (pyStableSortDesc key l).length := by omega
    have hi' : i < (l.enum.insertionSort (lexGE key)).length := by omega
    have hj' : j < (l.enum.insertionSort (lexGE key)).length := by omega
    simp only [dif_pos hi', dif_pos hj']
    have hxval : x = ((l.enum.insertionSort (lexGE key)).get ⟨i, hi'⟩).2 := by
      have houti : (pyStableSortDesc key l)[i]? =
          some ((l.enum.insertionSort (lexGE key)).get ⟨i, hi'⟩).2 := by
        unfold pyStableSortDesc
        rw [List.getElem?_map, List.getElem?_eq_getElem hi']
        simp [List.get_eq_getElem]
      rw [houti] at hx
      exact (Option.some_injective _ hx).symm
    have hyval : y = ((l.enum.insertionSort (lexGE key)).get ⟨j, hj'⟩).2 := by
      have houtj : (pyStableSortDesc key l)[j]? =
          some ((l.enum.insertionSort (lexGE key)).get ⟨j, hj'⟩).2 := by
        unfold pyStableSortDesc
        rw [List.getElem?_map, List.getElem?_eq_getElem hj']
        simp [List.get_eq_getElem]
      rw [houtj] at hy
      exact (Option.some_injective _ hy).symm
    have hrel : lexGE key ((l.enum.insertionSort (lexGE key)).get ⟨i, hi'⟩)
        ((l.enum.insertionSort (lexGE key)).get ⟨j, hj'⟩) := by
      have := List.pairwise_iff_getElem.mp hsort i j hi' hj' hij
      simpa [List.get_eq_getElem] using this
    rcases hrel with h | ⟨_, hle⟩
    · exfalso
      rw [hxval, hyval] at hkey
      omega
    · rcases lt_or_eq_of_le hle with h | h
      · exact h
      · exfalso
        have hmi : i < ((l.enum.insertionSort (lexGE key)).map Prod.fst).length := by
          rw [List.length_map]; omega
        have hmj : j < ((l.enum.insertionSort (lexGE key)).map Prod.fst).length := by
          rw [List.length_map]; omega
        have hgeq : ((l.enum.insertionSort (lexGE key)).map Prod.fst).get ⟨i, hmi⟩ =
            ((l.enum.insertionSort (lexGE key)).map Prod.fst).get ⟨j, hmj⟩ := by
          simp only [List.get_eq_getElem, List.getElem_map]
          simpa [List.get_eq_getElem] using h
        have := (List.Nodup.get_inj_iff hnodupfst).mp hgeq
        have : i = j := congrArg Fin.val this
        omega

/-- The head of the stable descending sort is the first element of the input
attaining the maximal key. -/
theorem pyStableSortDesc_head_first_max (key : α → ℤ) (l : List α)
    (hne : l ≠ []) :
    ∃ k, ∃ hk : k < l.length,
      (pyStableSortDesc key l).head? = some (l.get ⟨k, hk⟩) ∧
      (∀ j, ∀ hj : j < l.length, key (l.get ⟨j, hj⟩) ≤ key (l.get ⟨k, hk⟩)) ∧
      (∀ j, ∀ hj : j < l.length, j < k →
        key (l.get ⟨j, hj⟩) < key (l.get ⟨k, hk⟩)) := by
  classical
  have hperm : List.Perm (l.enum.insertionSort (lexGE key)) l.enum :=
    List.perm_insertionSort _ _
  have hsort : List.Sorted (lexGE key) (l.enum.insertionSort (lexGE key)) :=
    List.sorted_insertionSort _ _
  have hsl : (l.enum.insertionSort (lexGE key)).length = l.length := by
    rw [hperm.length_eq, List.enum_length]
  have hpos : 0 < (l.enum.insertionSort (lexGE key)).length := by
    rw [hsl]
    exact List.length_pos.mpr hne
  obtain ⟨p, rest, hsr⟩ : ∃ p rest, l.enum.insertionSort (lexGE key) = p :: rest := by
    cases hcase : l.enum.insertionSort (lexGE key) with
    | nil => rw [hcase] at hpos; simp at hpos
    | cons a t => exact ⟨a, t, rfl⟩
  have hpmem : p ∈ l.enum := hperm.mem_iff.mp (by rw [hsr]; exact List.mem_cons_self _ _)
  have henum := List.mem_enum_iff_getElem?.mp hpmem
  rcases List.getElem?_eq_some_iff.mp henum with ⟨hk, hkval⟩
  -- the head of the sorted tagged list is lexGE-below every tagged element
  have hall : ∀ q ∈ l.enum, lexGE key p q := by
    intro q hq
    have hq' : q ∈ l.enum.insertionSort (lexGE key) := hperm.mem_iff.mpr hq
    rw [hsr] at hq'
    rcases List.mem_cons.mp hq' with h | h
    · rw [h]
      exact Or.inr ⟨rfl, le_refl _⟩
    · rw [hsr] at hsort
      exact (List.sorted_cons.mp hsort).1 q h
  refine ⟨p.1, hk, ?_, ?_, ?_⟩
  · unfold pyStableSortDesc
    rw [hsr]
    simp only [List.map_cons, List.head?_cons]
    congr 1
    rw [← hkval]
    simp [List.get_eq_getElem]
  · intro j hj
    have hmem : ((j, l.get ⟨j, hj⟩) : ℕ × α) ∈ l.enum := by
      rw [List.mem_enum_iff_getElem?]
      simp [List.getElem?_eq_getElem hj, List.get_eq_getElem]
    have hrel := hall _ hmem
    have hpk : p.2 = l.get ⟨p.1, hk⟩ := by
      rw [← hkval]; simp [List.get_eq_getElem]
    rcases hrel with h | ⟨h, _⟩
    · rw [← hpk]; exact le_of_lt h
    · rw [← hpk]; exact le_of_eq h.symm
  · intro j hj hjk
    have hmem : ((j, l.get ⟨j, hj⟩) : ℕ × α) ∈ l.enum := by
      rw [List.mem_enum_iff_getElem?]
      simp [List.getElem?_eq_getElem hj, List.get_eq_getElem]
    have hrel := hall _ hmem
    have hpk : p.2 = l.get ⟨p.1, hk⟩ := by
      rw [← hkval]; simp [List.get_eq_getElem]
    rcases hrel with h | ⟨_, hle⟩
    · rw [← hpk]; exact h
    · exfalso; simp at hle; omega

end StableSortFacts

/-! Arithmetic facts about the Python `int()` truncation. -/

/-- If a nonnegative integer bound is strictly below a rational, it bounds the
truncation from below. -/
theorem le_pyInt_of_lt {n : ℤ} {q : ℚ} (hn : 0 ≤ n) (h : (n : ℚ) < q) :
    n ≤ pyInt q := by
  unfold pyInt
  have hq : (0 : ℚ) ≤ q := le_trans (by exact_mod_cast hn) (le_of_lt h)
  rw [if_neg (not_lt.mpr hq)]
  exact Int.le_floor.mpr (le_of_lt h)

/-- Truncation of a nonnegative rational is nonnegative. -/
theorem pyInt_nonneg {q : ℚ} (h : 0 ≤ q) : 0 ≤ pyInt q := by
  unfold pyInt
  rw [if_neg (not_lt.mpr h)]
  exact Int.le_floor.mpr (by exact_mod_cast h)

/-- Any insight emitted by the heating-source analysis carries the
`home_heating` category and at least 500 kg of savings (strictly more than
500 on the float value, but the `int()` truncation can land exactly on
500; the calculator-failure fallback is the constant 1500). -/
theorem analyze_heating_source_inv (calcHome : HomeCallArgs → Except Unit ℚ)
    (home_data : HomeData) (intro_data : IntroData) (ins : DiagnosticInsight)
    (h : analyze_heating_source calcHome home_data intro_data = some ins) :
    ins.category = "home_heating" ∧ 500 ≤ ins.co2_savings_kg := by
  unfold analyze_heating_source at h
  simp only [] at h
  split at h
  · exact absurd h (by simp)
  · split at h
    · split at h
      · rename_i co2_savings heq
        split at h
        · rename_i hgt
          have := Option.some_injective _ h
          subst this
          refine ⟨rfl, ?_⟩
          exact le_pyInt_of_lt (by norm_num) (by exact_mod_cast hgt)
        · exact absurd h (by simp)
      · have := Option.some_injective _ h
        subst this
        exact ⟨rfl, by norm_num⟩
    · exact absurd h (by simp)

/-- Any insight emitted by the solar-opportunity analysis carries the
`solar_opportunity` category and strictly more than 800 kg of savings (here
the threshold is tested after the `int()` truncation). -/
theorem analyze_solar_opportunity_inv (home_data : HomeData)
    (intro_data : IntroData) (ins : DiagnosticInsight)
    (h : analyze_solar_opportunity home_data intro_data = some ins) :
    ins.category = "solar_opportunity" ∧ 800 < ins.co2_savings_kg := by
  unfold analyze_solar_opportunity at h
  simp only [] at h
  split at h
  · exact absurd h (by simp)
  · split at h
    · exact absurd h (by simp)
    · split at h
      · split at h
        · rename_i hgt
          have := Option.some_injective _ h
          subst this
          exact ⟨rfl, hgt⟩
        · exact absurd h (by simp)
      · exact absurd h (by simp)

/-- Any insight emitted by the vehicle-efficiency analysis carries the
`transportation` category and at least 1000 kg of savings (the success path
tests the threshold before truncation, the fallback path after). -/
theorem analyze_vehicle_efficiency_inv
    (lookupMPG : ℤ → String → String → Except Unit (Option ℚ))
    (calcTransport : TransportCallArgs → Except Unit ℚ)
    (transport_data : TransportData) (ins : DiagnosticInsight)
    (h : analyze_vehicle_efficiency lookupMPG calcTransport transport_data =
      .ok (some ins)) :
    ins.category = "transportation" ∧ 1000 ≤ ins.co2_savings_kg := by
  unfold analyze_vehicle_efficiency at h
  simp only [] at h
  split at h
  · exact absurd h (by simp [pure, Except.pure])
  · split at h
    · exact absurd h (by simp [pure, Except.pure])
    · split at h
      · exact absurd h (by simp [pure, Except.pure])
      · split at h
        · rename_i co2_savings heq
          split at h
          · rename_i hgt
            simp only [pure, Except.pure, Except.ok.injEq, Option.some.injEq] at h
            subst h
            refine ⟨rfl, ?_⟩
            exact le_pyInt_of_lt (by norm_num) (by exact_mod_cast hgt)
          · exact absurd h (by simp [pure, Except.pure])
        · split at h
          · split at h
            · exact absurd h (by simp)
            · split at h
              · rename_i hgt
                simp only [pure, Except.pure, Except.ok.injEq, Option.some.injEq] at h
                subst h
                exact ⟨rfl, le_of_lt hgt⟩
              · exact absurd h (by simp [pure, Except.pure])
          · exact absurd h (by simp [pure, Except.pure])

/-- The expected-cost ratio test forces a nonnegative efficiency-savings
estimate (shared arithmetic core of the extreme-cost analyses). -/
theorem extreme_ratio_nonneg (bill expected : ℚ) (hexp : expected > 0)
    (hcomp : bill / expected > 18/10) :
    0 ≤ pyInt ((bill - expected) / (16/100) * 12 * (4/10) * (4/10)) := by
  apply pyInt_nonneg
  have hbill := (lt_div_iff₀ hexp).mp hcomp
  have h2 : 0 < bill - expected := by nlinarith
  have h3 : 0 < (bill - expected) / (16/100) := div_pos h2 (by norm_num)
  linarith

/-- Any insight emitted by the extreme-energy-cost analysis carries the
`home_efficiency` category and a nonnegative savings estimate. -/
theorem analyze_extreme_energy_costs_inv (home_data : HomeData)
    (intro_data : IntroData) (ins : DiagnosticInsight)
    (h : analyze_extreme_energy_costs home_data intro_data = .ok (some ins)) :
    ins.category = "home_efficiency" ∧ 0 ≤ ins.co2_savings_kg := by
  unfold analyze_extreme_energy_costs at h
  simp only [] at h
  split at h
  · exact absurd h (by simp [pure, Except.pure])
  · split at h
    · exact absurd h (by simp)
    · split at h <;> split at h <;> split at h <;>
        solve
          | (rename_i hE hcomp
             simp only [pure, Except.pure, Except.ok.injEq, Option.some.injEq] at h
             subst h
             exact ⟨rfl, extreme_ratio_nonneg _ _ hE hcomp⟩)
          | (rename_i hcomp
             exfalso
             revert hcomp
             norm_num)
          | simp [pure, Except.pure] at h

/-- Successful runs of the diagnostic analyzer are exactly the stable
descending sort of the four sub-analyses' outputs in source order. -/
theorem analyze_user_inefficiencies_eq (env : DiagEnv) (responses : Responses)
    (insights : List DiagnosticInsight)
    (h : analyze_user_inefficiencies env responses = .ok insights) :
    ∃ transport_insight energy_insight,
      analyze_vehicle_efficiency env.lookupMPG env.calcTransport
        responses.transportation = .ok transport_insight ∧
      analyze_extreme_energy_costs responses.home_energy responses.introduction =
        .ok energy_insight ∧
      insights = pyStableSortDesc (fun i => i.co2_savings_kg)
        ((analyze_heating_source env.calcHome responses.home_energy
            responses.introduction).toList ++
         (analyze_solar_opportunity responses.home_energy
            responses.introduction).toList ++
         transport_insight.toList ++ energy_insight.toList) := by
  unfold analyze_user_inefficiencies at h
  simp only [bind, Except.bind] at h
  cases hv : analyze_vehicle_efficiency env.lookupMPG env.calcTransport
      responses.transportation with
  | error e => rw [hv] at h; exact absurd h (by simp)
  | ok transport_insight =>
    rw [hv] at h
    simp only [] at h
    cases he : analyze_extreme_energy_costs responses.home_energy
        responses.introduction with
    | error e => rw [he] at h; exact absurd h (by simp)
    | ok energy_insight =>
      rw [he] at h
      simp only [pure, Except.pure, Except.ok.injEq] at h
      exact ⟨transport_insight, energy_insight, rfl, rfl, h.symm⟩

/-- Sortedness of the diagnostic analyzer output: descending CO2 savings. -/
theorem analyze_user_inefficiencies_sorted (env : DiagEnv)
    (responses : Responses) (insights : List DiagnosticInsight)
    (h : analyze_user_inefficiencies env responses = .ok insights) :
    insights.Pairwise fun a b => b.co2_savings_kg ≤ a.co2_savings_kg := by
  obtain ⟨tr, en, _, _, heq⟩ := analyze_user_inefficiencies_eq env responses insights h
  rw [heq]
  exact pyStableSortDesc_pairwise _ _

/-- The four per-check invariants, carried to every insight of a successful
diagnostic-analyzer run. -/
theorem analyze_user_inefficiencies_inv (env : DiagEnv) (responses : Responses)
    (insights : List DiagnosticInsight)
    (h : analyze_user_inefficiencies env responses = .ok insights) :
    ∀ ins ∈ insights,
      0 ≤ ins.co2_savings_kg ∧
      (ins.category = "home_heating" → 500 ≤ ins.co2_savings_kg) ∧
      (ins.category = "transportation" → 1000 ≤ ins.co2_savings_kg) ∧
      (ins.category = "solar_opportunity" → 800 < ins.co2_savings_kg) := by
  obtain ⟨tr, en, hv, he, heq⟩ := analyze_user_inefficiencies_eq env responses insights h
  intro ins hins
  rw [heq, pyStableSortDesc_mem] at hins
  rcases List.mem_append.mp hins with hins | hen
  rcases List.mem_append.mp hins with hins | htr
  rcases List.mem_append.mp hins with hht | hso
  · -- heating insight
    obtain ⟨hcat, hge⟩ := analyze_heating_source_inv _ _ _ _ (Option.mem_toList.mp hht)
    refine ⟨by omega, fun _ => hge, ?_, ?_⟩
    · intro hc; rw [hcat] at hc; exact absurd hc (by decide)
    · intro hc; rw [hcat] at hc; exact absurd hc (by decide)
  · -- solar insight
    obtain ⟨hcat, hgt⟩ := analyze_solar_opportunity_inv _ _ _ (Option.mem_toList.mp hso)
    refine ⟨by omega, ?_, ?_, fun _ => hgt⟩
    · intro hc; rw [hcat] at hc; exact absurd hc (by decide)
    · intro hc; rw [hcat] at hc; exact absurd hc (by decide)
  · -- vehicle insight
    have htr' : tr = some ins := Option.mem_toList.mp htr
    obtain ⟨hcat, hge⟩ := analyze_vehicle_efficiency_inv _ _ _ _ (htr' ▸ hv)
    refine ⟨by omega, ?_, fun _ => hge, ?_⟩
    · intro hc; rw [hcat] at hc; exact absurd hc (by decide)
    · intro hc; rw [hcat] at hc; exact absurd hc (by decide)
  · -- extreme-cost insight
    have hen' : en = some ins := Option.mem_toList.mp hen
    obtain ⟨hcat, hge⟩ := analyze_extreme_energy_costs_inv _ _ _ (hen' ▸ he)
    refine ⟨hge, ?_, ?_, ?_⟩
    · intro hc; rw [hcat] at hc; exact absurd hc (by decide)
    · intro hc; rw [hcat] at hc; exact absurd hc (by decide)
    · intro hc; rw [hcat] at hc; exact absurd hc (by decide)

/-- Successful runs of the lifestyle analyzer are either the empty-breakdown
short cut or exactly the stable descending sort of the five checks' outputs
in source order. -/
theorem analyze_lifestyle_opportunities_eq (env : LifeEnv)
    (responses : Responses) (recs : List LifestyleRecommendation)
    (h : analyze_lifestyle_opportunities env responses = .ok recs) :
    recs = [] ∨
    ∃ driving_rec energy_rec,
      analyze_driving_from_breakdown env.lookupMPG env.breakdown
        responses.transportation = .ok driving_rec ∧
      analyze_energy_from_breakdown env.breakdown responses.home_energy
        responses.introduction = .ok energy_rec ∧
      recs = pyStableSortDesc (fun r => r.current_co2_kg)
        ((analyze_flight_usage_from_breakdown env.breakdown
            responses.transportation).toList ++
         driving_rec.toList ++ energy_rec.toList ++
         (analyze_diet_from_breakdown env.breakdown responses.consumption).toList ++
         (analyze_shopping_from_breakdown env.breakdown responses.consumption).toList) := by
  unfold analyze_lifestyle_opportunities at h
  split at h
  · left
    simp only [pure, Except.pure, Except.ok.injEq] at h
    exact h.symm
  · right
    simp only [bind, Except.bind] at h
    cases hd : analyze_driving_from_breakdown env.lookupMPG env.breakdown
        responses.transportation with
    | error e => rw [hd] at h; exact absurd h (by simp)
    | ok driving_rec =>
      rw [hd] at h
      simp only [] at h
      cases he : analyze_energy_from_breakdown env.breakdown responses.home_energy
          responses.introduction with
      | error e => rw [he] at h; exact absurd h (by simp)
      | ok energy_rec =>
        rw [he] at h
        simp only [pure, Except.pure, Except.ok.injEq] at h
        exact ⟨driving_rec, energy_rec, rfl, rfl, h.symm⟩

/-- Sortedness of the lifestyle analyzer output: descending present-day
CO2 impact. -/
theorem analyze_lifestyle_opportunities_sorted (env : LifeEnv)
    (responses : Responses) (recs : List LifestyleRecommendation)
    (h : analyze_lifestyle_opportunities env responses = .ok recs) :
    recs.Pairwise fun a b => b.current_co2_kg ≤ a.current_co2_kg := by
  rcases analyze_lifestyle_opportunities_eq env responses recs h with hnil | ⟨d, e, _, _, heq⟩
  · rw [hnil]; exact List.Pairwise.nil
  · rw [heq]; exact pyStableSortDesc_pairwise _ _


/-- C1 (as stated, counterexample): with natural-gas factor 1.001 kg/therm
and no electricity factor, the heating analysis computes float savings 500.5,
passes the `> 500` test, and truncates to an insight with
`co2_savings_kg = 500` — which does not strictly exceed the 500 kg heating
threshold.  (The counterfactual heat-pump profile contributes no heating
emissions because the calculator matches the string 'heat pump', not the
'heat_pump' it is passed.) -/
theorem claim_C1_counterexample :
    (analyze_user_inefficiencies diagEnvGasHalf responsesGas).map
      (List.map fun i => (i.category, i.co2_savings_kg)) =
      .ok [("home_heating", (500 : ℤ))] ∧
    ¬ ((500 : ℤ) > 500) := by
  constructor
  · with_unfolding_all decide
  · decide

/-- C1 (amended): every insight of the Diagnostic Analyzer has a nonnegative
`co2_savings_kg` that is at least 500 for the heating-source check and at
least 1000 for the vehicle-efficiency check (the code tests the strict
threshold on the float value and then truncates, so the stored integer can
land exactly on the threshold), and strictly exceeds 800 for the
solar-opportunity check (which tests after truncation); the
calculator-failure fallbacks (fixed 1500 kg for heating, truncate-then-test
for vehicle) satisfy the same bounds. -/
theorem claim_C1_savings_thresholds (env : DiagEnv) (responses : Responses)
    (insights : List DiagnosticInsight)
    (h : analyze_user_inefficiencies env responses = .ok insights) :
    ∀ ins ∈ insights,
      0 ≤ ins.co2_savings_kg ∧
      (ins.category = "home_heating" → 500 ≤ ins.co2_savings_kg) ∧
      (ins.category = "transportation" → 1000 ≤ ins.co2_savings_kg) ∧
      (ins.category = "solar_opportunity" → 800 < ins.co2_savings_kg) :=
  analyze_user_inefficiencies_inv env responses insights h

/-- C1 witness: the amended bounds at the concrete heating-fallback run. -/
theorem claim_C1_witness :
    0 ≤ heatingFallbackInsight.co2_savings_kg ∧
    (heatingFallbackInsight.category = "home_heating" →
      500 ≤ heatingFallbackInsight.co2_savings_kg) ∧
    (heatingFallbackInsight.category = "transportation" →
      1000 ≤ heatingFallbackInsight.co2_savings_kg) ∧
    (heatingFallbackInsight.category = "solar_opportunity" →
      800 < heatingFallbackInsight.co2_savings_kg) :=
  claim_C1_savings_thresholds diagEnvFail responsesGas [heatingFallbackInsight]
    (by with_unfolding_all rfl) heatingFallbackInsight
    (List.mem_singleton.mpr rfl)

/-- C2 (as stated, counterexample): for an insight tagged with both
`heat_pumps` and `hvac` (which share the keywords hvac, heating, cooling) and
a program naming exactly the two unshared keywords electrification and
air conditioning, the code scores the keyword component +5 (2 of 9 keyword
occurrences, below 25%), while the claim's set-union reading scores +10
(2 of 6 distinct keywords, 25%); with a zero type bonus and no credibility
flag the totals are 5 versus 10. -/
theorem claim_C2_counterexample :
    score_program_specificity ["heat_pumps", "hvac"] programUnionGap = 5 ∧
    keywordSpecificityComponentSpecUnion ["heat_pumps", "hvac"] programUnionGap +
      program_type_preference programUnionGap.program_type +
      credibilityBonus programUnionGap = 10 ∧
    (5 : ℤ) ≠ 10 := by
  refine ⟨?_, ?_, by decide⟩
  · with_unfolding_all decide
  · with_unfolding_all decide

/-- C2 (amended): the Program Matcher's score decomposes as the sum of
exactly three components — the threshold-based keyword-specificity component
computed over the concatenation of the per-technology marker-keyword lists
(keywords listed by several technologies counted once per listing, not the
set union), the fixed program-type bonus (rebate 5, grant 4, tax_credit 3,
tax_deduction 2, loan 1, tax_incentive 1, anything else 0), and a flat +5
credibility bonus.  Determinism is inherent: the score is a pure function of
the insight's technologies and the program record. -/
theorem claim_C2_score_decomposition :
    (∀ (techs : List String) (p : Program),
      score_program_specificity techs p =
        keywordSpecificityComponent techs p +
        program_type_preference p.program_type + credibilityBonus p) ∧
    program_type_preference "rebate" = 5 ∧
    program_type_preference "grant" = 4 ∧
    program_type_preference "tax_credit" = 3 ∧
    program_type_preference "tax_deduction" = 2 ∧
    program_type_preference "loan" = 1 ∧
    program_type_preference "tax_incentive" = 1 ∧
    (∀ t : String, t ≠ "rebate" → t ≠ "grant" → t ≠ "tax_credit" →
      t ≠ "tax_deduction" → t ≠ "loan" → t ≠ "tax_incentive" →
      program_type_preference t = 0) := by
  refine ⟨?_, rfl, rfl, rfl, rfl, rfl, rfl, ?_⟩
  · intro techs p
    unfold score_program_specificity keywordSpecificityComponent credibilityBonus
    simp only []
    ring
  · intro t h1 h2 h3 h4 h5 h6
    unfold program_type_preference
    simp [h1, h2, h3, h4, h5, h6]

/-- C2 witness: the decomposition at a concrete insight and program, and the
default type bonus at a concrete unlisted program type. -/
theorem claim_C2_witness :
    score_program_specificity ["solar"] programSolarRebate =
      keywordSpecificityComponent ["solar"] programSolarRebate +
      program_type_preference programSolarRebate.program_type +
      credibilityBonus programSolarRebate ∧
    program_type_preference "other_financial" = 0 :=
  ⟨claim_C2_score_decomposition.1 ["solar"] programSolarRebate,
   claim_C2_score_decomposition.2.2.2.2.2.2.2 "other_financial" (by decide)
     (by decide) (by decide) (by decide) (by decide) (by decide)⟩

/-- C5: the Diagnostic Analyzer's list is sorted descending by
`co2_savings_kg`, and the Lifestyle Analyzer's list is sorted descending by
`current_co2_kg` — the two pipelines sort by these two different keys. -/
theorem claim_C5_sort_keys :
    (∀ (env : DiagEnv) (responses : Responses)
      (insights : List DiagnosticInsight),
      analyze_user_inefficiencies env responses = .ok insights →
      insights.Pairwise fun a b => b.co2_savings_kg ≤ a.co2_savings_kg) ∧
    (∀ (env : LifeEnv) (responses : Responses)
      (recs : List LifestyleRecommendation),
      analyze_lifestyle_opportunities env responses = .ok recs →
      recs.Pairwise fun a b => b.current_co2_kg ≤ a.current_co2_kg) :=
  ⟨analyze_user_inefficiencies_sorted, analyze_lifestyle_opportunities_sorted⟩

/-- C5 witness: both sortedness statements at concrete runs. -/
theorem claim_C5_witness :
    ([heatingFallbackInsight].Pairwise fun a b =>
      b.co2_savings_kg ≤ a.co2_savings_kg) ∧
    ([heavyMeatRec].Pairwise fun a b =>
      b.current_co2_kg ≤ a.current_co2_kg) :=
  ⟨claim_C5_sort_keys.1 diagEnvFail responsesGas [heatingFallbackInsight]
      (by with_unfolding_all rfl),
   claim_C5_sort_keys.2 lifeEnvDiet responsesHeavyMeat [heavyMeatRec]
      (by with_unfolding_all rfl)⟩

/-- C8: if clearing the old rows raises, or any exception is raised inside
the generation body, generate_diagnostic_recommendations catches it and
returns exactly the one generic fallback recommendation string (totality of
the embedding makes non-propagation structural). -/
theorem claim_C8_exception_fallback (env : DiagEnv) (session_id : String)
    (responses : Responses) (db : List Recommendation)
    (h : env.clearOk = false ∨ diagBody env session_id responses = .error ()) :
    (generate_diagnostic_recommendations env session_id responses db).1 =
      [fallbackRecommendationText] := by
  unfold generate_diagnostic_recommendations
  by_cases hc : env.clearOk
  · rcases h with h | h
    · rw [hc] at h
      exact absurd h (by simp)
    · simp [hc, h]
  · simp [hc]

/-- C8 witness: the fallback at a concrete run whose row-clearing raises. -/
theorem claim_C8_witness :
    (generate_diagnostic_recommendations diagEnvClearFail "s" responsesGas []).1 =
      [fallbackRecommendationText] :=
  claim_C8_exception_fallback diagEnvClearFail "s" responsesGas []
    (Or.inl rfl)

/-- C9 (implicit, code-only): the per-session delete is committed before any
analysis runs, so when an exception is raised later the function returns the
fallback string with the session's prior rows already gone from the committed
state and no replacement rows committed by it — the failure path is not
atomic. -/
theorem claim_C9_nonatomic_failure (env : DiagEnv) (session_id : String)
    (responses : Responses) (db : List Recommendation)
    (hclear : env.clearOk = true)
    (hbody : diagBody env session_id responses = .error ()) :
    generate_diagnostic_recommendations env session_id responses db =
      ([fallbackRecommendationText],
       db.filter (fun row => row.session_id ≠ session_id), []) ∧
    ∀ row ∈ (generate_diagnostic_recommendations env session_id responses db).2.1,
      row.session_id ≠ session_id := by
  have heq : generate_diagnostic_recommendations env session_id responses db =
      ([fallbackRecommendationText],
       db.filter (fun row => row.session_id ≠ session_id), []) := by
    unfold generate_diagnostic_recommendations
    simp [hclear, hbody]
  refine ⟨heq, ?_⟩
  intro row hrow
  rw [heq] at hrow
  simp only [List.mem_filter, decide_eq_true_eq] at hrow
  exact hrow.2

/-- C9 witness: a concrete failing run over a database holding one row of the
session under test and one row of another session. -/
theorem claim_C9_witness :
    generate_diagnostic_recommendations diagEnvQueryFail "s" responsesSolarGas
        [oldRowSameSession, oldRowOtherSession] =
      ([fallbackRecommendationText],
       [oldRowSameSession, oldRowOtherSession].filter
         (fun row => row.session_id ≠ "s"), []) ∧
    ∀ row ∈ (generate_diagnostic_recommendations diagEnvQueryFail "s"
        responsesSolarGas [oldRowSameSession, oldRowOtherSession]).2.1,
      row.session_id ≠ "s" :=
  claim_C9_nonatomic_failure diagEnvQueryFail "s" responsesSolarGas
    [oldRowSameSession, oldRowOtherSession] rfl (by with_unfolding_all decide)

/-- C10 (implicit, code-only): the solar-opportunity analysis abstains
whenever the monthly bill is at most 80 dollars, even with no existing solar
and suitable housing, and even when the bill-based estimate
`(bill / 0.16) * 12 * (0.4 - 0.05)` exceeds the 800 kg threshold (which it
does for every bill above roughly 30.5 dollars). -/
theorem claim_C10_solar_abstains_low_bill (home_data : HomeData)
    (intro_data : IntroData) (bill : ℚ)
    (hsolar : home_data.solar_panels = false)
    (hbill : home_data.monthly_electricity = some bill)
    (hap : strHasSub ((intro_data.housing_type.getD "").toLower) "apartment" = false)
    (hcondo : strHasSub ((intro_data.housing_type.getD "").toLower) "condo" = false)
    (hle : bill ≤ 80)
    (_hsavings : 800 < ((bill / (16/100)) * 12) * (4/10 - 5/100)) :
    analyze_solar_opportunity home_data intro_data = none := by
  unfold analyze_solar_opportunity
  simp only [hsolar, hbill, hap, hcondo, Option.getD_some]
  simp only [Bool.false_eq_true, if_false, Bool.or_self]
  rw [if_neg (not_lt.mpr hle)]

/-- C10 witness: a 50 dollar bill on a suitable house abstains although the
estimate 1312.5 kg exceeds 800 kg. -/
theorem claim_C10_witness :
    analyze_solar_opportunity homeNoSolarBill50 introHouse = none :=
  claim_C10_solar_abstains_low_bill homeNoSolarBill50 introHouse 50 rfl rfl
    (by with_unfolding_all decide) (by with_unfolding_all decide)
    (by norm_num) (by norm_num)

/-- C7: with three or more existing technology recommendations the lifestyle
generator returns at most one recommendation — the one whose present-day CO2
impact is maximal among all detected opportunities — and otherwise at most
three. -/
theorem claim_C7_lifestyle_cap (env : LifeEnv) (responses : Responses)
    (existing_tech_rec_count : ℕ) :
    (3 ≤ existing_tech_rec_count →
      (generate_lifestyle_recommendations env responses
        existing_tech_rec_count).length ≤ 1 ∧
      ∀ rec ∈ generate_lifestyle_recommendations env responses
          existing_tech_rec_count,
        ∀ recs, analyze_lifestyle_opportunities env responses = .ok recs →
          ∀ other ∈ recs, other.current_co2_kg ≤ rec.current_co2_kg) ∧
    (existing_tech_rec_count < 3 →
      (generate_lifestyle_recommendations env responses
        existing_tech_rec_count).length ≤ 3) := by
  unfold generate_lifestyle_recommendations
  cases ha : analyze_lifestyle_opportunities env responses with
  | error e =>
    simp only []
    refine ⟨fun _ => ⟨by simp, ?_⟩, fun _ => by simp⟩
    intro rec hrec
    simp at hrec
  | ok recs =>
    simp only []
    by_cases hnil : recs = []
    · subst hnil
      refine ⟨fun _ => ⟨by simp, ?_⟩, fun _ => by simp⟩
      intro rec hrec
      simp at hrec
    · rw [if_neg hnil]
      constructor
      · intro h3
        rw [if_pos h3]
        constructor
        · simp [List.length_take]
        · intro rec hrec recs2 ha2 other hother
          have hr2 : recs2 = recs := (Except.ok.injEq _ _).mp ha2.symm
          rw [hr2] at hother
          have hsorted := analyze_lifestyle_opportunities_sorted env responses recs ha
          cases recs with
          | nil => exact absurd rfl hnil
          | cons r0 t =>
            have hr0 : rec = r0 := by
              simpa [List.take] using hrec
            subst hr0
            rcases List.mem_cons.mp hother with h | h
            · rw [h]
            · exact (List.pairwise_cons.mp hsorted).1 other h
      · intro hlt
        rw [if_neg (by omega : ¬ 3 ≤ existing_tech_rec_count)]
        simp [List.length_take]

/-- C7 witness: the cap at a concrete run with three existing
recommendations (top-only behaviour) and two (up-to-three behaviour). -/
theorem claim_C7_witness :
    ((generate_lifestyle_recommendations lifeEnvDiet responsesHeavyMeat
        3).length ≤ 1 ∧
      ∀ rec ∈ generate_lifestyle_recommendations lifeEnvDiet responsesHeavyMeat 3,
        ∀ recs, analyze_lifestyle_opportunities lifeEnvDiet responsesHeavyMeat =
            .ok recs →
          ∀ other ∈ recs, other.current_co2_kg ≤ rec.current_co2_kg) ∧
    (generate_lifestyle_recommendations lifeEnvDiet responsesHeavyMeat
      2).length ≤ 3 :=
  ⟨(claim_C7_lifestyle_cap lifeEnvDiet responsesHeavyMeat 3).1 (by decide),
   (claim_C7_lifestyle_cap lifeEnvDiet responsesHeavyMeat 2).2 (by decide)⟩

/-- C3: program selection is a pure function of the candidate list and the
insight (determinism is structural in the embedding), and ties in score are
broken by retrieval order: single-best returns the first program in retrieval
order attaining the maximal score, and top-N selection maps its output
positions injectively back to input positions, preserves the candidate at
each position, is sorted descending by score, and orders equal-score
candidates by their retrieval position. -/
theorem claim_C3_selection_stable (programs : List (Program × Bool))
    (insight : DiagnosticInsight) (count : ℕ) (hne : programs ≠ []) :
    (∃ k, ∃ hk : k < programs.length,
      select_most_specific_program programs insight =
        some (programs.get ⟨k, hk⟩) ∧
      (∀ j, ∀ hj : j < programs.length,
        score_program_specificity insight.technologies (programs.get ⟨j, hj⟩).1 ≤
          score_program_specificity insight.technologies (programs.get ⟨k, hk⟩).1) ∧
      (∀ j, ∀ hj : j < programs.length, j < k →
        score_program_specificity insight.technologies (programs.get ⟨j, hj⟩).1 <
          score_program_specificity insight.technologies (programs.get ⟨k, hk⟩).1)) ∧
    (∃ φ : ℕ → ℕ,
      (∀ i, i < (select_top_programs programs insight count).length →
        φ i < programs.length ∧
        (select_top_programs programs insight count)[i]? = programs[φ i]?) ∧
      (∀ i j, i < (select_top_programs programs insight count).length →
        j < (select_top_programs programs insight count).length →
        φ i = φ j → i = j) ∧
      (∀ i j x y, i < j →
        (select_top_programs programs insight count)[i]? = some x →
        (select_top_programs programs insight count)[j]? = some y →
        score_program_specificity insight.technologies x.1 =
          score_program_specificity insight.technologies y.1 → φ i < φ j) ∧
      (select_top_programs programs insight count).Pairwise fun a b =>
        score_program_specificity insight.technologies b.1 ≤
          score_program_specificity insight.technologies a.1) := by
  constructor
  · obtain ⟨k, hk, hhead, hmax, hfirst⟩ := pyStableSortDesc_head_first_max
      (fun pb => score_program_specificity insight.technologies pb.1) programs hne
    exact ⟨k, hk, hhead, hmax, fun j hj hjk => hfirst j hj hjk⟩
  · obtain ⟨φ, hφ1, hφ2, hφ3⟩ := pyStableSortDesc_stable
      (fun pb => score_program_specificity insight.technologies pb.1) programs
    have hsel : select_top_programs programs insight count =
        (pyStableSortDesc
          (fun pb => score_program_specificity insight.technologies pb.1)
          programs).take count := by
      unfold select_top_programs
      rw [if_neg hne]
    refine ⟨φ, ?_, ?_, ?_, ?_⟩
    · intro i hi
      rw [hsel, List.length_take] at hi
      obtain ⟨hic, hil⟩ := lt_min_iff.mp hi
      obtain ⟨hb, hgetEq⟩ := hφ1 i hil
      refine ⟨hb, ?_⟩
      rw [hsel, List.getElem?_take, if_pos hic, hgetEq]
    · intro i j hi hj hphij
      rw [hsel, List.length_take] at hi hj
      exact hφ2 i j (lt_min_iff.mp hi).2 (lt_min_iff.mp hj).2 hphij
    · intro i j x y hij hx hy hkey
      rw [hsel, List.getElem?_take] at hx hy
      split at hx
      · split at hy
        · exact hφ3 i j x y hij hx hy hkey
        · exact absurd hy (by simp)
      · exact absurd hx (by simp)
    · rw [hsel]
      exact (pyStableSortDesc_pairwise _ _).take

/-- C3 witness: the selection properties at a concrete two-candidate list. -/
theorem claim_C3_witness :
    (∃ k, ∃ hk : k < programsPair.length,
      select_most_specific_program programsPair solarInsightSolarGas =
        some (programsPair.get ⟨k, hk⟩) ∧
      (∀ j, ∀ hj : j < programsPair.length,
        score_program_specificity solarInsightSolarGas.technologies
            (programsPair.get ⟨j, hj⟩).1 ≤
          score_program_specificity solarInsightSolarGas.technologies
            (programsPair.get ⟨k, hk⟩).1) ∧
      (∀ j, ∀ hj : j < programsPair.length, j < k →
        score_program_specificity solarInsightSolarGas.technologies
            (programsPair.get ⟨j, hj⟩).1 <
          score_program_specificity solarInsightSolarGas.technologies
            (programsPair.get ⟨k, hk⟩).1)) ∧
    (∃ φ : ℕ → ℕ,
      (∀ i, i < (select_top_programs programsPair solarInsightSolarGas 2).length →
        φ i < programsPair.length ∧
        (select_top_programs programsPair solarInsightSolarGas 2)[i]? =
          programsPair[φ i]?) ∧
      (∀ i j, i < (select_top_programs programsPair solarInsightSolarGas 2).length →
        j < (select_top_programs programsPair solarInsightSolarGas 2).length →
        φ i = φ j → i = j) ∧
      (∀ i j x y, i < j →
        (select_top_programs programsPair solarInsightSolarGas 2)[i]? = some x →
        (select_top_programs programsPair solarInsightSolarGas 2)[j]? = some y →
        score_program_specificity solarInsightSolarGas.technologies x.1 =
          score_program_specificity solarInsightSolarGas.technologies y.1 →
        φ i < φ j) ∧
      (select_top_programs programsPair solarInsightSolarGas 2).Pairwise fun a b =>
        score_program_specificity solarInsightSolarGas.technologies b.1 ≤
          score_program_specificity solarInsightSolarGas.technologies a.1) :=
  claim_C3_selection_stable programsPair solarInsightSolarGas 2 (by decide)

/-- One secondary-rank iteration: the program query succeeded, and either no
candidate exists and no row is produced, or a single-best match yields
exactly one row. -/
theorem processSecondaryInsight_spec (env : DiagEnv)
    (session_id state_code : String) (insight : DiagnosticInsight)
    (texts : List String) (rows : List Recommendation)
    (h : processSecondaryInsight env session_id state_code insight =
      .ok (texts, rows)) :
    ∃ ps, env.getPrograms state_code insight.technologies = .ok ps ∧
      ((ps = [] ∧ rows = []) ∨
       (ps ≠ [] ∧ ∃ pb, select_most_specific_program ps insight = some pb ∧
         rows = [mkRecommendation session_id insight pb])) := by
  unfold processSecondaryInsight at h
  simp only [bind, Except.bind] at h
  cases hq : env.getPrograms state_code insight.technologies with
  | error e => rw [hq] at h; exact absurd h (by simp)
  | ok ps =>
    rw [hq] at h
    simp only [] at h
    refine ⟨ps, rfl, ?_⟩
    split at h
    · rename_i hps
      simp only [pure, Except.pure, Except.ok.injEq, Prod.mk.injEq] at h
      exact Or.inl ⟨hps, h.2.symm⟩
    · rename_i hps
      split at h
      · rename_i pb hsel
        simp only [pure, Except.pure, Except.ok.injEq, Prod.mk.injEq] at h
        exact Or.inr ⟨hps, pb, hsel, h.2.symm⟩
      · rename_i hsel
        exfalso
        unfold select_most_specific_program at hsel
        rw [List.head?_eq_none_iff] at hsel
        have hlen := pyStableSortDesc_length
          (fun pb => score_program_specificity insight.technologies pb.1) ps
        rw [hsel] at hlen
        have hlz : ps.length = 0 := by simpa using hlen.symm
        exact hps (List.length_eq_zero.mp hlz)

/-- The rank-2/rank-3 loop: at most one row per processed insight, every row
comes from a single-best match of one of the processed insights, and the row
list decomposes into per-insight blocks that are empty exactly when the
insight's program query returned no candidates. -/
theorem processSecondaryList_spec (env : DiagEnv)
    (session_id state_code : String) :
    ∀ (insights : List DiagnosticInsight) (texts : List String)
      (rows : List Recommendation),
      processSecondaryList env session_id state_code insights =
        .ok (texts, rows) →
      rows.length ≤ insights.length ∧
      (∀ row ∈ rows, ∃ ins ∈ insights, ∃ pb,
        row = mkRecommendation session_id ins pb) ∧
      ∃ blocks : List (List Recommendation),
        blocks.length = insights.length ∧ rows = blocks.flatten ∧
        ∀ (i : ℕ) (ins : DiagnosticInsight), insights[i]? = some ins →
          ∃ block, blocks[i]? = some block ∧
            ∃ ps, env.getPrograms state_code ins.technologies = .ok ps ∧
              ((ps = [] ∧ block = []) ∨
               (ps ≠ [] ∧ ∃ pb, select_most_specific_program ps ins = some pb ∧
                 block = [mkRecommendation session_id ins pb])) := by
  intro insights
  induction insights with
  | nil =>
    intro texts rows h
    unfold processSecondaryList at h
    simp only [pure, Except.pure, Except.ok.injEq, Prod.mk.injEq] at h
    obtain ⟨_, hrows⟩ := h
    subst hrows
    refine ⟨by simp, ?_, [], by simp, by simp, ?_⟩
    · intro row hrow
      simp at hrow
    · intro i ins hi
      simp at hi
  | cons insight rest ih =>
    intro texts rows h
    unfold processSecondaryList at h
    simp only [bind, Except.bind] at h
    cases hh : processSecondaryInsight env session_id state_code insight with
    | error e => rw [hh] at h; exact absurd h (by simp)
    | ok headRes =>
      rw [hh] at h
      simp only [] at h
      cases ht : processSecondaryList env session_id state_code rest with
      | error e => rw [ht] at h; exact absurd h (by simp)
      | ok tailRes =>
        rw [ht] at h
        simp only [pure, Except.pure, Except.ok.injEq, Prod.mk.injEq] at h
        obtain ⟨_, hrows⟩ := h
        obtain ⟨hlen_t, hmem_t, blocks_t, hbl, hfl, hidx⟩ :=
          ih tailRes.1 tailRes.2 (by rw [ht])
        obtain ⟨ps, hps, hdisj⟩ := processSecondaryInsight_spec env session_id
          state_code insight headRes.1 headRes.2 (by rw [hh])
        have hhead1 : headRes.2.length ≤ 1 := by
          rcases hdisj with ⟨_, hr⟩ | ⟨_, pb, _, hr⟩ <;> simp [hr]
        refine ⟨?_, ?_, headRes.2 :: blocks_t, by simp [hbl], ?_, ?_⟩
        · rw [← hrows]
          simp only [List.length_append, List.length_cons]
          omega
        · intro row hrow
          rw [← hrows] at hrow
          rcases List.mem_append.mp hrow with hrow | hrow
          · rcases hdisj with ⟨_, hr⟩ | ⟨_, pb, _, hr⟩
            · rw [hr] at hrow
              simp at hrow
            · rw [hr] at hrow
              simp only [List.mem_singleton] at hrow
              exact ⟨insight, List.mem_cons_self _ _, pb, hrow⟩
          · obtain ⟨ins, hins, pb, hpb⟩ := hmem_t row hrow
            exact ⟨ins, List.mem_cons_of_mem _ hins, pb, hpb⟩
        · rw [← hrows, List.flatten_cons, hfl]
        · intro i ins hi
          cases i with
          | zero =>
            simp only [List.getElem?_cons_zero, Option.some.injEq] at hi
            subst hi
            exact ⟨headRes.2, by simp, ps, hps, hdisj⟩
          | succ n =>
            simp only [List.getElem?_cons_succ] at hi
            obtain ⟨block, hb, rest_fact⟩ := hidx n ins hi
            exact ⟨block, by simpa using hb, rest_fact⟩

/-- Successful generation bodies decompose into the analyzer result, the
top-insight block (empty when its program query returned no candidates), and
the rank-2/rank-3 loop result. -/
theorem diagBody_eq (env : DiagEnv) (session_id : String)
    (responses : Responses) (texts : List String) (rows : List Recommendation)
    (h : diagBody env session_id responses = .ok (texts, rows)) :
    ∃ insights, analyze_user_inefficiencies env responses = .ok insights ∧
      ((insights = [] ∧ texts = [noInsightsText] ∧ rows = []) ∨
       (∃ top rest ps0 texts2 rows2,
         insights = top :: rest ∧
         env.getPrograms (pickStateCode responses) top.technologies = .ok ps0 ∧
         processSecondaryList env session_id (pickStateCode responses)
           (rest.take 2) = .ok (texts2, rows2) ∧
         rows = (if ps0 = [] then []
           else (select_top_programs ps0 top (min 3 ps0.length)).map
             (mkRecommendation session_id top)) ++ rows2)) := by
  unfold diagBody at h
  simp only [bind, Except.bind] at h
  cases ha : analyze_user_inefficiencies env responses with
  | error e => rw [ha] at h; exact absurd h (by simp)
  | ok insights =>
    rw [ha] at h
    simp only [] at h
    refine ⟨insights, rfl, ?_⟩
    cases insights with
    | nil =>
      left
      simp only [pure, Except.pure, Except.ok.injEq, Prod.mk.injEq] at h
      exact ⟨rfl, h.1.symm, h.2.symm⟩
    | cons top rest =>
      right
      simp only [] at h
      cases hq : env.getPrograms (pickStateCode responses) top.technologies with
      | error e => rw [hq] at h; exact absurd h (by simp)
      | ok ps0 =>
        rw [hq] at h
        simp only [] at h
        cases hs : processSecondaryList env session_id (pickStateCode responses)
            (rest.take 2) with
        | error e => rw [hs] at h; exact absurd h (by simp)
        | ok secondary =>
          rw [hs] at h
          simp only [pure, Except.pure, Except.ok.injEq, Prod.mk.injEq] at h
          refine ⟨top, rest, ps0, secondary.1, secondary.2, rfl, hq, by rw [hs], ?_⟩
          obtain ⟨_, h2⟩ := h
          by_cases hps : ps0 = []
          · simp only [hps, if_pos rfl] at h2 ⊢
            simpa using h2.symm
          · simp only [if_neg hps] at h2 ⊢
            exact h2.symm

/-- Distinct (program id, pool) pairs give distinct persisted program
references. -/
theorem mkRecommendation_ref_ne (session_id : String)
    (insight : DiagnosticInsight) {a b : Program × Bool}
    (h : (a.1.id, a.2) ≠ (b.1.id, b.2)) :
    ((mkRecommendation session_id insight a).federal_program_id,
     (mkRecommendation session_id insight a).state_program_id) ≠
    ((mkRecommendation session_id insight b).federal_program_id,
     (mkRecommendation session_id insight b).state_program_id) := by
  unfold mkRecommendation
  rcases a with ⟨pa, fa⟩
  rcases b with ⟨pb, fb⟩
  intro hc
  apply h
  cases fa <;> cases fb <;> simp_all

/-- C4 (amended): on a successful run whose analyzer produced at least one
insight and whose top-insight program query returned a candidate list with
pairwise-distinct (id, pool) references, the persisted rows are the
top-insight block followed by the rank-2/rank-3 blocks, where the top block
has exactly min(3, number of candidates) rows all sharing the top insight's
text, category and savings figure and referencing pairwise-distinct programs,
each of the rank-2 and rank-3 insights contributes exactly one row via
single-best matching when its query has at least one candidate and no row
otherwise, insights beyond rank 3 contribute nothing, and at most 5 rows are
persisted in total. -/
theorem claim_C4_row_allocation (env : DiagEnv) (session_id : String)
    (responses : Responses) (top : DiagnosticInsight)
    (rest : List DiagnosticInsight) (ps0 : List (Program × Bool))
    (texts : List String) (rows : List Recommendation)
    (hana : analyze_user_inefficiencies env responses = .ok (top :: rest))
    (hq : env.getPrograms (pickStateCode responses) top.technologies = .ok ps0)
    (hbody : diagBody env session_id responses = .ok (texts, rows))
    (hnodup : ps0.Pairwise fun a b => (a.1.id, a.2) ≠ (b.1.id, b.2)) :
    ∃ rows0 rows23,
      rows = rows0 ++ rows23 ∧
      rows0.length = min 3 ps0.length ∧
      (∀ row ∈ rows0, row.recommendation_text = recommendationText top ∧
        row.co2_savings_kg = top.co2_savings_kg ∧ row.category = top.category) ∧
      rows0.Pairwise (fun a b =>
        (a.federal_program_id, a.state_program_id) ≠
        (b.federal_program_id, b.state_program_id)) ∧
      (∃ blocks : List (List Recommendation),
        blocks.length = (rest.take 2).length ∧ rows23 = blocks.flatten ∧
        ∀ (i : ℕ) (ins : DiagnosticInsight), (rest.take 2)[i]? = some ins →
          ∃ block, blocks[i]? = some block ∧
            ∃ ps, env.getPrograms (pickStateCode responses) ins.technologies =
                .ok ps ∧
              ((ps = [] ∧ block = []) ∨
               (ps ≠ [] ∧ ∃ pb, select_most_specific_program ps ins = some pb ∧
                 block = [mkRecommendation session_id ins pb]))) ∧
      rows23.length ≤ 2 ∧
      rows.length ≤ 5 := by
  obtain ⟨insights, hana2, hshape⟩ := diagBody_eq env session_id responses texts rows hbody
  rw [hana] at hana2
  have hins : insights = top :: rest := ((Except.ok.injEq _ _).mp hana2).symm
  subst hins
  rcases hshape with ⟨hnil, _, _⟩ | ⟨top2, rest2, ps02, texts2, rows2, heq, hq2, hsec, hrows⟩
  · exact absurd hnil (by simp)
  · obtain ⟨htop, hrest⟩ : top = top2 ∧ rest = rest2 :=
      (List.cons.injEq _ _ _ _).mp heq
    subst htop
    subst hrest
    have hps : ps0 = ps02 := by
      rw [hq] at hq2
      exact (Except.ok.injEq _ _).mp hq2
    subst hps
    obtain ⟨hlen23, _, blocks, hbl, hfl, hidx⟩ :=
      processSecondaryList_spec env session_id (pickStateCode responses)
        (rest.take 2) texts2 rows2 hsec
    have hlen23' : rows2.length ≤ 2 := by
      have := List.length_take 2 rest
      omega
    refine ⟨(if ps0 = [] then []
        else (select_top_programs ps0 top (min 3 ps0.length)).map
          (mkRecommendation session_id top)), rows2, hrows, ?_, ?_, ?_,
      ⟨blocks, hbl, hfl, hidx⟩, hlen23', ?_⟩
    · -- length of the top block
      by_cases hps : ps0 = []
      · simp [hps]
      · rw [if_neg hps]
        unfold select_top_programs
        rw [if_neg hps]
        simp only [List.length_map, List.length_take, pyStableSortDesc_length]
        omega
    · -- shared text, category and savings
      intro row hrow
      by_cases hps : ps0 = []
      · rw [if_pos hps] at hrow
        simp at hrow
      · rw [if_neg hps] at hrow
        obtain ⟨pb, _, hpb⟩ := List.mem_map.mp hrow
        rw [← hpb]
        unfold mkRecommendation
        exact ⟨rfl, rfl, rfl⟩
    · -- distinct program references
      by_cases hps : ps0 = []
      · simp [hps]
      · rw [if_neg hps]
        have hsorted : (pyStableSortDesc
            (fun pb => score_program_specificity top.technologies pb.1)
            ps0).Pairwise fun a b => (a.1.id, a.2) ≠ (b.1.id, b.2) := by
          refine (List.Perm.pairwise_iff ?_ (pyStableSortDesc_perm _ _)).mpr hnodup
          intro x y hxy
          exact fun hc => hxy hc.symm
        have hsel : (select_top_programs ps0 top (min 3 ps0.length)).Pairwise
            fun a b => (a.1.id, a.2) ≠ (b.1.id, b.2) := by
          unfold select_top_programs
          rw [if_neg hps]
          exact hsorted.take
        exact hsel.map _ (fun a b hab => mkRecommendation_ref_ne session_id top hab)
    · -- at most five rows in total
      have h0 : (if ps0 = [] then []
          else (select_top_programs ps0 top (min 3 ps0.length)).map
            (mkRecommendation session_id top)).length ≤ 3 := by
        by_cases hps : ps0 = []
        · simp [hps]
        · rw [if_neg hps]
          unfold select_top_programs
          rw [if_neg hps]
          simp only [List.length_map, List.length_take, pyStableSortDesc_length]
          omega
      rw [hrows]
      simp only [List.length_append]
      omega

/-- C4 (as stated, counterexample): on a successful run with two insights
(solar 5250 kg on top, heating fallback 1500 kg at rank 2) where the rank-2
program query returns no candidates, only the top insight's single-candidate
row is persisted: 1 row in total, not the min(3,1) + 1 = 2 rows the claim
demands for ranks 1 and 2. -/
theorem claim_C4_counterexample :
    (analyze_user_inefficiencies diagEnvSolarOnly responsesSolarGas).map
      (List.map fun i => i.category) =
      .ok ["solar_opportunity", "home_heating"] ∧
    diagEnvSolarOnly.getPrograms (pickStateCode responsesSolarGas)
      ["heat_pumps"] = .ok [] ∧
    (diagBody diagEnvSolarOnly "s" responsesSolarGas).map
      (fun out => out.2.length) = .ok 1 ∧
    min 3 1 + 1 = 2 ∧
    (1 : ℕ) ≠ 2 := by
  refine ⟨?_, ?_, ?_, by decide, by decide⟩
  · with_unfolding_all decide
  · with_unfolding_all decide
  · with_unfolding_all decide

/-- Every row added by a successful generation body is built by
`mkRecommendation` from one of the analyzer's insights. -/
theorem diagBody_rows_src (env : DiagEnv) (session_id : String)
    (responses : Responses) (texts : List String) (rows : List Recommendation)
    (h : diagBody env session_id responses = .ok (texts, rows)) :
    ∀ row ∈ rows, ∃ insights ins pb,
      analyze_user_inefficiencies env responses = .ok insights ∧
      ins ∈ insights ∧ row = mkRecommendation session_id ins pb := by
  obtain ⟨insights, hana, hshape⟩ := diagBody_eq env session_id responses texts rows h
  intro row hrow
  rcases hshape with ⟨_, _, hrows⟩ |
    ⟨top, rest, ps0, texts2, rows2, heq, _, hsec, hrows⟩
  · rw [hrows] at hrow
    simp at hrow
  · rw [hrows] at hrow
    rcases List.mem_append.mp hrow with hrow | hrow
    · by_cases hps : ps0 = []
      · rw [if_pos hps] at hrow
        simp at hrow
      · rw [if_neg hps] at hrow
        obtain ⟨pb, _, hpb⟩ := List.mem_map.mp hrow
        exact ⟨insights, top, pb, hana,
          by rw [heq]; exact List.mem_cons_self _ _, hpb.symm⟩
    · obtain ⟨_, hmem, _⟩ := processSecondaryList_spec env session_id
        (pickStateCode responses) (rest.take 2) texts2 rows2 hsec
      obtain ⟨ins, hins, pb, hpb⟩ := hmem row hrow
      refine ⟨insights, ins, pb, hana, ?_, hpb⟩
      rw [heq]
      exact List.mem_cons_of_mem _ (List.take_subset 2 rest hins)

/-- C6: every Recommendation row persisted by the generator has
`priority_score = min(co2_savings_kg // 50, 100)` computed from its own
savings figure with floor division, hence between 0 and 100. -/
theorem claim_C6_priority_score (env : DiagEnv) (session_id : String)
    (responses : Responses) (db : List Recommendation) (row : Recommendation)
    (hrow : row ∈ (generate_diagnostic_recommendations env session_id
      responses db).2.2) :
    row.priority_score = min (Int.fdiv row.co2_savings_kg 50) 100 ∧
    0 ≤ row.priority_score ∧ row.priority_score ≤ 100 := by
  unfold generate_diagnostic_recommendations at hrow
  cases hcl : env.clearOk with
  | false =>
    rw [hcl] at hrow
    simp at hrow
  | true =>
    rw [hcl] at hrow
    simp only [if_true] at hrow
    cases hb : diagBody env session_id responses with
    | error e =>
      rw [hb] at hrow
      simp at hrow
    | ok out =>
      obtain ⟨texts, adds⟩ := out
      rw [hb] at hrow
      simp only [] at hrow
      obtain ⟨insights, ins, pb, hana, hins, hpb⟩ :=
        diagBody_rows_src env session_id responses texts adds (by rw [hb]) row hrow
      obtain ⟨hnn, _, _, _⟩ :=
        analyze_user_inefficiencies_inv env responses insights hana ins hins
      subst hpb
      unfold mkRecommendation
      refine ⟨rfl, ?_, ?_⟩
      · have hfd : 0 ≤ Int.fdiv ins.co2_savings_kg 50 :=
          Int.fdiv_nonneg hnn (by norm_num)
        exact le_min hfd (by norm_num)
      · exact min_le_right _ _

set_option maxRecDepth 40000 in
/-- C6 witness: the bound at a concrete persisted row. -/
theorem claim_C6_witness :
    (mkRecommendation "s" solarInsightSolarGas
      (programSolarRebate, true)).priority_score =
      min (Int.fdiv (mkRecommendation "s" solarInsightSolarGas
        (programSolarRebate, true)).co2_savings_kg 50) 100 ∧
    0 ≤ (mkRecommendation "s" solarInsightSolarGas
      (programSolarRebate, true)).priority_score ∧
    (mkRecommendation "s" solarInsightSolarGas
      (programSolarRebate, true)).priority_score ≤ 100 :=
  claim_C6_priority_score diagEnvOneProgram "s" responsesSolarGas []
    (mkRecommendation "s" solarInsightSolarGas (programSolarRebate, true))
    (by with_unfolding_all (exact List.mem_cons_self _ _))

set_option maxRecDepth 40000 in
/-- C4 witness: the amended allocation at a concrete two-insight run in
which every program query returns one candidate. -/
theorem claim_C4_witness :
    ∃ rows0 rows23,
      [mkRecommendation "s" solarInsightSolarGas (programSolarRebate, true),
       mkRecommendation "s" heatingFallbackInsight (programSolarRebate, true)] =
        rows0 ++ rows23 ∧
      rows0.length = min 3 [(programSolarRebate, true)].length ∧
      (∀ row ∈ rows0,
        row.recommendation_text = recommendationText solarInsightSolarGas ∧
        row.co2_savings_kg = solarInsightSolarGas.co2_savings_kg ∧
        row.category = solarInsightSolarGas.category) ∧
      rows0.Pairwise (fun a b =>
        (a.federal_program_id, a.state_program_id) ≠
        (b.federal_program_id, b.state_program_id)) ∧
      (∃ blocks : List (List Recommendation),
        blocks.length = ([heatingFallbackInsight].take 2).length ∧
        rows23 = blocks.flatten ∧
        ∀ (i : ℕ) (ins : DiagnosticInsight),
          ([heatingFallbackInsight].take 2)[i]? = some ins →
          ∃ block, blocks[i]? = some block ∧
            ∃ ps, diagEnvOneProgram.getPrograms
                (pickStateCode responsesSolarGas) ins.technologies = .ok ps ∧
              ((ps = [] ∧ block = []) ∨
               (ps ≠ [] ∧ ∃ pb, select_most_specific_program ps ins = some pb ∧
                 block = [mkRecommendation "s" ins pb]))) ∧
      rows23.length ≤ 2 ∧
      ([mkRecommendation "s" solarInsightSolarGas (programSolarRebate, true),
        mkRecommendation "s" heatingFallbackInsight
          (programSolarRebate, true)] : List Recommendation).length ≤ 5 :=
  claim_C4_row_allocation diagEnvOneProgram "s" responsesSolarGas
    solarInsightSolarGas [heatingFallbackInsight] [(programSolarRebate, true)]
    [recommendationText solarInsightSolarGas,
     recommendationText heatingFallbackInsight]
    [mkRecommendation "s" solarInsightSolarGas (programSolarRebate, true),
     mkRecommendation "s" heatingFallbackInsight (programSolarRebate, true)]
    (by with_unfolding_all rfl) rfl (by with_unfolding_all rfl) (by simp)
